import Mathlib

/-!
A verification development for the SR-IOV DRA driver's device-claim
lifecycle engine.  The definitions below are a shallow embedding of the
driver's Go source: the configuration-resolution logic
(`pkg/api/virtualfunction/v1alpha1/api.go`, `pkg/devicestate` —
`getMapOfOpaqueDeviceConfigForDevice`), the host driver-binding state
machine (`pkg/host`), the crash-durable claim ownership store
(`pkg/podmanager`, `pkg/types`), the driver prepare/unprepare entry
points (`pkg/driver`), and hardware discovery
(`pkg/devicestate/discovery.go`).  External effects (sysfs, modprobe,
kubelet checkpoint files, the Kubernetes API) are modelled as explicit
state and environment records.
-/

namespace DraSriov

/-- `consts.DriverName` from `pkg/consts/consts.go`. -/
def DriverName : String := "sriovnetwork.k8snetworkplumbingwg.io"

/-! ## VfConfig (`pkg/api/virtualfunction/v1alpha1/api.go`) -/

/-- `VfConfig` holds the set of parameters for configuring a VF
(the `TypeMeta` bookkeeping fields are omitted; they carry no
configuration data). -/
structure VfConfig where
  driver : String
  addVhostMount : Bool
  ifName : String
  netAttachDefName : String
  netAttachDefNamespace : String
  deriving Repr, DecidableEq

/-- `DefaultVfConfig()`: all string fields empty, `AddVhostMount`
is Go's zero value `false`. -/
def DefaultVfConfig : VfConfig :=
  { driver := ""
    addVhostMount := false
    ifName := ""
    netAttachDefName := ""
    netAttachDefNamespace := "" }

/-- `(c *VfConfig) Override(other *VfConfig)`: copies `other`'s
`Driver`, `IfName` and `NetAttachDefName` onto `c` when non-empty;
the source touches no other field. -/
def VfConfig.Override (c other : VfConfig) : VfConfig :=
  let c := if other.driver ≠ "" then { c with driver := other.driver } else c
  let c := if other.ifName ≠ "" then { c with ifName := other.ifName } else c
  let c := if other.netAttachDefName ≠ "" then
    { c with netAttachDefName := other.netAttachDefName } else c
  c

/-! ## Opaque device configuration resolution
(`getMapOfOpaqueDeviceConfigForDevice` in `pkg/devicestate`) -/

/-- `resourceapi.AllocationConfigSourceClass`. -/
def sourceClass : String := "FromClass"

/-- `resourceapi.AllocationConfigSourceClaim`. -/
def sourceClaim : String := "FromClaim"

/-- The opaque part of a `DeviceAllocationConfiguration`:
`Opaque.Driver` plus the decode of `Opaque.Parameters.Raw` by the
strict JSON decoder — `none` models raw bytes that do not decode into
a `VfConfig`. -/
structure OpaquePayload where
  driver : String
  parameters : Option VfConfig
  deriving Repr, DecidableEq

/-- `resourceapi.DeviceAllocationConfiguration`: a source tag
(`FromClass`/`FromClaim` as strings, anything else invalid), the list
of request names it applies to, and the opaque payload (`none` models
`DeviceConfiguration.Opaque == nil`). -/
structure DeviceAllocationConfiguration where
  source : String
  requests : List String
  opaqueCfg : Option OpaquePayload
  deriving Repr, DecidableEq

/-- The result map `map[string]*configapi.VfConfig`, modelled as an
association list keyed by request name (first-insertion order). -/
abbrev ResultConfigs := List (String × VfConfig)

/-- Go map read `resultConfigs[request]`. -/
def lookupCfg : List (String × VfConfig) → String → Option VfConfig
  | [], _ => none
  | (k, v) :: rest, r => if k = r then some v else lookupCfg rest r

/-- Go map write `resultConfigs[request] = resultConfig`. -/
def upsertCfg : List (String × VfConfig) → String → VfConfig → List (String × VfConfig)
  | [], r, v => [(r, v)]
  | (k, w) :: rest, r, v =>
    if k = r then (k, v) :: rest else (k, w) :: upsertCfg rest r v

/-- The inner `for _, request := range config.Requests` loop: for each
request, take the accumulated config (or a fresh default), override it
with the fragment's decoded config, and store it back. -/
def applyFragment (m : List (String × VfConfig)) (requests : List String)
    (vf : VfConfig) : List (String × VfConfig) :=
  requests.foldl
    (fun acc req =>
      upsertCfg acc req (((lookupCfg acc req).getD DefaultVfConfig).Override vf))
    m

/-- The first loop of `getMapOfOpaqueDeviceConfigForDevice`: partition
the fragments into class-level and claim-level (preserving order),
failing on any other source value. -/
def splitConfigs : List DeviceAllocationConfiguration →
    Except String (List DeviceAllocationConfiguration × List DeviceAllocationConfiguration)
  | [] => .ok ([], [])
  | c :: rest =>
    if c.source = sourceClass then
      match splitConfigs rest with
      | .ok (cls, clm) => .ok (c :: cls, clm)
      | .error e => .error e
    else if c.source = sourceClaim then
      match splitConfigs rest with
      | .ok (cls, clm) => .ok (cls, c :: clm)
      | .error e => .error e
    else
      .error ("invalid config source: " ++ c.source)

/-- The second loop: walk the candidate fragments in order, failing on
an absent opaque payload, silently skipping fragments for other
drivers, failing on an undecodable payload, and otherwise folding the
fragment into the per-request result map. -/
def mergeCandidates : List DeviceAllocationConfiguration →
    List (String × VfConfig) → Except String (List (String × VfConfig))
  | [], acc => .ok acc
  | c :: rest, acc =>
    match c.opaqueCfg with
    | none => .error "only opaque parameters are supported by this driver"
    | some op =>
      if op.driver ≠ DriverName then
        mergeCandidates rest acc
      else
        match op.parameters with
        | none => .error "error decoding config parameters"
        | some vf => mergeCandidates rest (applyFragment acc c.requests vf)

/-- `getMapOfOpaqueDeviceConfigForDevice`: two-pass resolution —
class-level fragments first, then claim-level fragments — erroring if
the final map is empty. -/
def getMapOfOpaqueDeviceConfigForDevice
    (possibleConfigs : List DeviceAllocationConfiguration) :
    Except String (List (String × VfConfig)) :=
  match splitConfigs possibleConfigs with
  | .error e => .error e
  | .ok (classConfigs, claimConfigs) =>
    match mergeCandidates (classConfigs ++ claimConfigs) [] with
    | .error e => .error e
    | .ok resultConfigs =>
      if resultConfigs.isEmpty then .error "no configs constructed for driver"
      else .ok resultConfigs

/-! ## Host driver-binding state machine (`pkg/host`)

Sysfs and modprobe are modelled as an explicit `HostState`: which
driver each PCI device is bound to, which kernel modules are loaded,
which modules `modprobe` can find, which driver directories exist
under `/sys/bus/pci/drivers` (a bind write to a missing driver
fails), which devices expose a `driver_override` file, and which
driver the kernel would auto-probe for each device.  Healthy sysfs
reads (readlink/stat) are assumed to succeed. -/

/-- Association-list read with `DecidableEq` keys (Go map read). -/
def lookupKey {α : Type} : List (String × α) → String → Option α
  | [], _ => none
  | (k, v) :: rest, r => if k = r then some v else lookupKey rest r

/-- Association-list write (Go map write). -/
def upsertKey {α : Type} : List (String × α) → String → α → List (String × α)
  | [], r, v => [(r, v)]
  | (k, w) :: rest, r, v =>
    if k = r then (k, v) :: rest else (k, w) :: upsertKey rest r v

/-- Association-list delete (Go map `delete`). -/
def removeKey {α : Type} : List (String × α) → String → List (String × α)
  | [], _ => []
  | (k, w) :: rest, r =>
    if k = r then removeKey rest r else (k, w) :: removeKey rest r

/-- The sysfs/modprobe world the `pkg/host` functions act on. -/
structure HostState where
  /-- `/sys/bus/pci/devices/<dev>/driver` symlink: the driver each
  device is currently bound to (absent / `""` = unbound). -/
  drivers : List (String × String)
  /-- Modules listed in `/proc/modules`. -/
  loadedModules : List String
  /-- Modules `modprobe` can successfully load. -/
  availableModules : List String
  /-- Drivers with a `/sys/bus/pci/drivers/<driver>` directory: a bind
  write fails for any other target. -/
  knownDrivers : List String
  /-- Devices exposing a `driver_override` file. -/
  overrideSupport : List String
  /-- Current content of each device's `driver_override` file. -/
  overrides : List (String × String)
  /-- The driver the kernel binds when `drivers_probe` is written for a
  device (absent = probe finds no driver). -/
  probeTable : List (String × String)
  deriving Repr, DecidableEq

/-- `GetDriverByBusAndDevice`: readlink of the device's `driver` link;
`""` when the link does not exist. -/
def GetDriverByBusAndDevice (s : HostState) (device : String) : String :=
  (lookupKey s.drivers device).getD ""

/-- `IsDpdkDriver`. -/
def IsDpdkDriver (driver : String) : Bool :=
  driver = "vfio-pci" ∨ driver = "uio_pci_generic" ∨ driver = "igb_uio"

/-- `IsKernelModuleLoaded`: scan of `/proc/modules`. -/
def IsKernelModuleLoaded (s : HostState) (moduleName : String) : Bool :=
  moduleName ∈ s.loadedModules

/-- `LoadKernelModule`: `modprobe` via chroot; succeeds exactly when
the module is available on the host. -/
def LoadKernelModule (s : HostState) (moduleName : String) :
    Except String HostState :=
  if moduleName ∈ s.availableModules then
    .ok { s with loadedModules := moduleName :: s.loadedModules }
  else
    .error ("failed to load kernel module " ++ moduleName)

/-- The load-and-verify loop shared by `EnsureDpdkModuleLoaded` and
`EnsureVhostModulesLoaded`: load every not-yet-loaded module in order,
verifying each load (the Go code collects the errors and fails if any
occurred; the model fails on the first). -/
def loadMissingModules (s : HostState) : List String → Except String HostState
  | [] => .ok s
  | m :: rest =>
    if IsKernelModuleLoaded s m then loadMissingModules s rest
    else
      match LoadKernelModule s m with
      | .error e => .error e
      | .ok s' =>
        if IsKernelModuleLoaded s' m then loadMissingModules s' rest
        else .error ("module " ++ m ++ " was not loaded after LoadKernelModule call")

/-- `EnsureDpdkModuleLoaded`: non-DPDK drivers need no modules;
`vfio-pci` needs `vfio` and `vfio_pci`; any other DPDK driver is an
unknown-DPDK-driver error. -/
def EnsureDpdkModuleLoaded (s : HostState) (driver : String) :
    Except String HostState :=
  if ¬ IsDpdkDriver driver then .ok s
  else if driver = "vfio-pci" then loadMissingModules s ["vfio", "vfio_pci"]
  else .error ("unknown DPDK driver: " ++ driver)

/-- `EnsureVhostModulesLoaded`: `tun` and `vhost_net`. -/
def EnsureVhostModulesLoaded (s : HostState) : Except String HostState :=
  loadMissingModules s ["tun", "vhost_net"]

/-- `setDriverOverride`: writes the device's `driver_override` file
(`""` resets it); a no-op when the device has no such file. -/
def setDriverOverride (s : HostState) (device override : String) : HostState :=
  if device ∈ s.overrideSupport then
    { s with overrides := upsertKey s.overrides device override }
  else s

/-- `bindDriver`: write the device id into
`/sys/bus/pci/drivers/<driver>/bind`; fails when that driver
directory does not exist. -/
def bindDriver (s : HostState) (device driver : String) :
    Except String HostState :=
  if driver ∈ s.knownDrivers then
    .ok { s with drivers := upsertKey s.drivers device driver }
  else
    .error ("failed to bind driver " ++ driver)

/-- `unbindDriver`: write into the current driver's `unbind` file. -/
def unbindDriver (s : HostState) (device : String) : HostState :=
  { s with drivers := upsertKey s.drivers device "" }

/-- `probeDriver`: write into `/sys/bus/pci/drivers_probe`; the kernel
binds whatever default it resolves for the device. -/
def probeDriver (s : HostState) (device : String) : HostState :=
  match lookupKey s.probeTable device with
  | some d => { s with drivers := upsertKey s.drivers device d }
  | none => s

/-- `UnbindDriverByBusAndDevice`: no-op when the device has no
driver. -/
def UnbindDriverByBusAndDevice (s : HostState) (device : String) : HostState :=
  if GetDriverByBusAndDevice s device = "" then s
  else unbindDriver s device

/-- `BindDriverByBusAndDevice`: ensure DPDK modules, then no-op if
already on the target driver, else unbind, set the override hint,
bind, and clear the hint. -/
def BindDriverByBusAndDevice (s : HostState) (device driver : String) :
    Except String HostState :=
  match EnsureDpdkModuleLoaded s driver with
  | .error e => .error e
  | .ok s1 =>
    if GetDriverByBusAndDevice s1 device ≠ "" ∧
        GetDriverByBusAndDevice s1 device = driver then
      .ok s1
    else
      match bindDriver
          (setDriverOverride
            (if GetDriverByBusAndDevice s1 device ≠ "" then
              UnbindDriverByBusAndDevice s1 device
            else s1)
            device driver)
          device driver with
      | .error e => .error e
      | .ok s2 => .ok (setDriverOverride s2 device "")

/-- `BindDefaultDriver`: a device already on a non-DPDK driver is
treated as already-default; otherwise unbind (if bound), reset the
override hint and ask the kernel to probe. -/
def BindDefaultDriver (s : HostState) (device : String) :
    Except String HostState :=
  let curDriver := GetDriverByBusAndDevice s device
  if curDriver ≠ "" ∧ ¬ IsDpdkDriver curDriver then .ok s
  else
    let s := if curDriver ≠ "" then UnbindDriverByBusAndDevice s device else s
    let s := setDriverOverride s device ""
    .ok (probeDriver s device)

/-- `BindDeviceDriver`: returns the driver bound immediately before
rebinding (the value stored as `OriginalDriver`) together with the new
host state.  `config.Driver == ""` does nothing, `"default"` binds the
default driver, anything else binds that driver. -/
def BindDeviceDriver (s : HostState) (pciAddress : String)
    (config : VfConfig) : Except String (String × HostState) :=
  if config.driver = "" then .ok ("", s)
  else
    let currentDriver := GetDriverByBusAndDevice s pciAddress
    if config.driver = "default" then
      match BindDefaultDriver s pciAddress with
      | .error e => .error e
      | .ok s' => .ok (currentDriver, s')
    else
      match BindDriverByBusAndDevice s pciAddress config.driver with
      | .error e => .error e
      | .ok s' => .ok (currentDriver, s')

/-- `RestoreDeviceDriver`: bind the default driver when no original
driver was recorded, otherwise bind the recorded driver. -/
def RestoreDeviceDriver (s : HostState) (pciAddress originalDriver : String) :
    Except String HostState :=
  if originalDriver = "" then BindDefaultDriver s pciAddress
  else BindDriverByBusAndDevice s pciAddress originalDriver

/-! ## Prepared devices and the claim ownership store
(`pkg/types/types.go`, `pkg/podmanager/podmanager.go`) -/

/-- A CDI device node (`cdispec.DeviceNode`): container path, host
path and node type. -/
structure DeviceNode where
  path : String
  hostPath : String
  nodeType : String
  deriving Repr, DecidableEq

/-- The container-edit payload (`cdispec.ContainerEdits`): environment
variables and device nodes to inject. -/
structure ContainerEditsModel where
  env : List String
  deviceNodes : List DeviceNode
  deriving Repr, DecidableEq

/-- `drapbv1.Device`: the kubelet-facing device record. -/
structure KDevice where
  requestNames : List String
  poolName : String
  deviceName : String
  cdiDeviceIDs : List String
  deriving Repr, DecidableEq

/-- `types.PreparedDevice`: the durable record of one device bound
into a workload. -/
structure PreparedDevice where
  device : KDevice
  claimName : String
  claimNamespace : String
  claimUID : String
  containerEdits : ContainerEditsModel
  config : VfConfig
  ifName : String
  pciAddress : String
  podUID : String
  netAttachDefConfig : String
  originalDriver : String
  deriving Repr, DecidableEq

/-- `Manager.unprepareDevices` (`pkg/devicestate`): for each prepared
device whose recorded requested driver is non-empty, restore the
device to its recorded original driver, aborting on the first
failure. -/
def unprepareDevices (s : HostState) :
    List PreparedDevice → Except String HostState
  | [] => .ok s
  | pd :: rest =>
    if pd.config.driver ≠ "" then
      match RestoreDeviceDriver s pd.pciAddress pd.originalDriver with
      | .error e =>
        .error ("failed to restore original driver for device " ++ pd.pciAddress ++ ": " ++ e)
      | .ok s' => unprepareDevices s' rest
    else unprepareDevices s rest

/-- `types.PreparedClaimsByPodUID`: pod UID → claim UID → prepared
devices, modelled as nested association lists. -/
abbrev PodIndex := List (String × List (String × List PreparedDevice))

/-- `types.Checkpoint`: the versioned, checksummed snapshot.  The
marshalled byte form is modelled by the checkpoint value itself
(`encoding/json` round-trips this data faithfully), so a checksum
function has type `Checkpoint → Nat`. -/
structure Checkpoint where
  checksum : Nat
  v1 : PodIndex
  deriving DecidableEq

/-- `types.NewCheckpoint()`. -/
def NewCheckpoint : Checkpoint := { checksum := 0, v1 := [] }

/-- `Checkpoint.MarshalCheckpoint`: zero the checksum field, compute
the checksum of that serialization, then serialize with the computed
checksum stored. -/
def MarshalCheckpoint (ck : Checkpoint → Nat) (cp : Checkpoint) : Checkpoint :=
  let zeroed := { cp with checksum := 0 }
  { zeroed with checksum := ck zeroed }

/-- `Checkpoint.VerifyChecksum`: recompute the checksum with the
checksum field zeroed and compare with the stored value. -/
def VerifyChecksum (ck : Checkpoint → Nat) (cp : Checkpoint) : Bool :=
  cp.checksum = ck { cp with checksum := 0 }

/-- The pod manager together with its durable snapshot file:
`index` is the in-memory `preparedClaimsByPodUID` map, `snapshot` the
checkpoint file on disk (`none` = no file yet), and `writes` counts
how many snapshot writes have been performed. -/
structure PMState where
  index : PodIndex
  snapshot : Option Checkpoint
  writes : Nat
  deriving DecidableEq

/-- `PodManager.syncToCheckpoint`: marshal a fresh checkpoint holding
the current index and write it out (a healthy disk is assumed). -/
def syncToCheckpoint (ck : Checkpoint → Nat) (st : PMState) : PMState :=
  { st with
    snapshot := some (MarshalCheckpoint ck { NewCheckpoint with v1 := st.index })
    writes := st.writes + 1 }

/-- `NewPodManager`: load the snapshot if present (the kubelet
checkpoint manager's `GetCheckpoint` unmarshals the file and verifies
its checksum, failing on a mismatch), otherwise create an empty
snapshot. -/
def NewPodManager (ck : Checkpoint → Nat) (stored : Option Checkpoint) :
    Except String PMState :=
  match stored with
  | some cp =>
    if VerifyChecksum ck cp then
      .ok { index := cp.v1, snapshot := some cp, writes := 0 }
    else
      .error "unable to load checkpoint: checkpoint is corrupted"
  | none =>
    .ok (syncToCheckpoint ck { index := [], snapshot := none, writes := 0 })

/-- `PodManager.Set`: store the device list under (pod, claim), fully
replacing any prior list, then write the snapshot. -/
def pmSet (ck : Checkpoint → Nat) (st : PMState) (podUID claimUID : String)
    (preparedDevices : List PreparedDevice) : PMState :=
  let podConfigs := (lookupKey st.index podUID).getD []
  syncToCheckpoint ck
    { st with index := upsertKey st.index podUID (upsertKey podConfigs claimUID preparedDevices) }

/-- `PodManager.Get`. -/
def pmGet (st : PMState) (podUID claimUID : String) :
    Option (List PreparedDevice) :=
  match lookupKey st.index podUID with
  | some podConfigs => lookupKey podConfigs claimUID
  | none => none

/-- The linear scan inside `PodManager.GetByClaim`. -/
def scanForClaim : List (String × List (String × List PreparedDevice)) →
    String → Option (List PreparedDevice)
  | [], _ => none
  | (_, podConfigs) :: rest, claimUID =>
    match lookupKey podConfigs claimUID with
    | some devices => some devices
    | none => scanForClaim rest claimUID

/-- `PodManager.GetByClaim`: linear scan of the pods for one holding
the claim. -/
def pmGetByClaim (st : PMState) (claimUID : String) :
    Option (List PreparedDevice) :=
  scanForClaim st.index claimUID

/-- The scan inside `PodManager.DeleteClaim`: the first pod UID whose
claim map holds the claim (the Go loop breaks after the first hit). -/
def findPodHoldingClaim : List (String × List (String × List PreparedDevice)) →
    String → Option String
  | [], _ => none
  | (uid, podConfigs) :: rest, claimUID =>
    match lookupKey podConfigs claimUID with
    | some _ => some uid
    | none => findPodHoldingClaim rest claimUID

/-- `PodManager.DeleteClaim`: delete the whole entry of the (first)
pod holding the claim and write the snapshot; when no pod holds the
claim, do nothing — no snapshot write. -/
def pmDeleteClaim (ck : Checkpoint → Nat) (st : PMState) (claimUID : String) :
    PMState :=
  match findPodHoldingClaim st.index claimUID with
  | some uid => syncToCheckpoint ck { st with index := removeKey st.index uid }
  | none => st

/-- `PodManager.DeletePod`. -/
def pmDeletePod (ck : Checkpoint → Nat) (st : PMState) (podUID : String) :
    PMState :=
  syncToCheckpoint ck { st with index := removeKey st.index podUID }

/-! ## Driver prepare/unprepare entry points (`pkg/driver`) -/

/-- `resourceapi.DeviceRequestAllocationResult` (the fields the driver
reads). -/
structure DeviceRequestAllocationResult where
  request : String
  driver : String
  pool : String
  device : String
  deriving Repr, DecidableEq

/-- `claim.Status.Allocation.Devices`: allocation results plus the
allocation-level configuration fragments. -/
structure DeviceAllocation where
  results : List DeviceRequestAllocationResult
  config : List DeviceAllocationConfiguration
  deriving Repr, DecidableEq

/-- The parts of a `resourceapi.ResourceClaim` the driver reads:
identity, the pods the claim is reserved for (their UIDs), and the
allocation (`none` = not yet allocated). -/
structure Claim where
  name : String
  namespace' : String
  uid : String
  reservedFor : List String
  allocation : Option DeviceAllocation
  deriving Repr, DecidableEq

/-- `kubeletplugin.NamespacedObject` as passed to unprepare. -/
structure NamespacedObject where
  name : String
  namespace' : String
  uid : String
  deriving Repr, DecidableEq

/-- The conversion loop shared by both branches of
`prepareResourceClaim`: one `kubeletplugin.Device` per prepared
device, built from its `Device` field. -/
def toKubeletDevices (preparedDevices : List PreparedDevice) : List KDevice :=
  preparedDevices.map (·.device)

/-- The driver's mutable world: the pod manager (with its snapshot
file), the host, and the CDI spec files on disk. -/
structure DriverState where
  pm : PMState
  host : HostState
  cdiSpecFiles : List String
  deriving DecidableEq

/-- The device-state manager dependency of the driver
(`d.deviceStateManager.PrepareDevicesForClaim`): given the host state,
the CDI spec files, the shared interface-name counter and the claim,
it returns the prepared devices or an error, together with the
possibly-mutated host state, CDI files and counter (side effects
survive failures). -/
structure ManagerEnv where
  prepareDevicesForClaim :
    HostState → List String → Nat → Claim →
    Except String (List PreparedDevice) × HostState × List String × Nat

/-- `Driver.prepareResourceClaim`: validate the claim (exactly one
reserving pod, an allocation present), short-circuit through the
ownership store when the (pod, claim) pair is already recorded,
otherwise prepare the devices, commit them into the store and return
the converted device list.  The trailing best-effort status mirror
(`UpdateStatus` under bounded backoff) touches no local state and
cannot change the returned result — its failures are only logged — so
it is not represented. -/
def prepareResourceClaim (ck : Checkpoint → Nat) (env : ManagerEnv)
    (s : DriverState) (ifNameIndex : Nat) (claim : Claim) :
    Except String (List KDevice) × DriverState × Nat :=
  match claim.reservedFor with
  | [] => (.error "no pod info found for claim", s, ifNameIndex)
  | _ :: _ :: _ => (.error "multiple pods found for claim not supported", s, ifNameIndex)
  | [podUID] =>
    match claim.allocation with
    | none => (.error "claim not yet allocated", s, ifNameIndex)
    | some _ =>
      match pmGet s.pm podUID claim.uid with
      | some preparedDevices =>
        (.ok (toKubeletDevices preparedDevices), s, ifNameIndex)
      | none =>
        match env.prepareDevicesForClaim s.host s.cdiSpecFiles ifNameIndex claim with
        | (.error e, host', files', idx') =>
          (.error ("error preparing devices for claim: " ++ e),
            { s with host := host', cdiSpecFiles := files' }, idx')
        | (.ok preparedDevices, host', files', idx') =>
          let pm' := pmSet ck s.pm podUID claim.uid preparedDevices
          (.ok (toKubeletDevices preparedDevices),
            { pm := pm', host := host', cdiSpecFiles := files' }, idx')

/-- `cdi.Handler.DeleteSpecFile`: remove the spec file named after the
given UID. -/
def cdiDeleteSpecFile (files : List String) (uid : String) : List String :=
  files.filter (fun f => f ≠ uid)

/-- `Manager.Unprepare` (`pkg/devicestate`): revert the driver
configuration of every owned device, then delete the claim-level and
pod-level CDI spec files.  The Go code indexes `preparedDevices[0]`
unconditionally; the panic on an empty list is modelled as an
error. -/
def managerUnprepare (host : HostState) (files : List String)
    (claimUID : String) (preparedDevices : List PreparedDevice) :
    Except String (HostState × List String) :=
  match unprepareDevices host preparedDevices with
  | .error e => .error ("unprepare failed: " ++ e)
  | .ok host' =>
    match preparedDevices with
    | [] => .error "panic: index out of range"
    | pd :: _ =>
      .ok (host', cdiDeleteSpecFile (cdiDeleteSpecFile files claimUID) pd.podUID)

/-- `Driver.unprepareResourceClaim`: a claim with no record in the
ownership store is a no-op success; otherwise unprepare the owned
devices and delete the claim's record (writing a new snapshot). -/
def unprepareResourceClaim (ck : Checkpoint → Nat) (s : DriverState)
    (claim : NamespacedObject) : Except String DriverState :=
  match pmGetByClaim s.pm claim.uid with
  | none => .ok s
  | some preparedDevices =>
    match managerUnprepare s.host s.cdiSpecFiles claim.uid preparedDevices with
    | .error e => .error ("error unpreparing devices for claim: " ++ e)
    | .ok (host', files') =>
      .ok { pm := pmDeleteClaim ck s.pm claim.uid, host := host', cdiSpecFiles := files' }

/-! ## Hardware discovery (`pkg/devicestate/discovery.go`) -/

/-- Hex digit value. -/
def hexDigitVal (c : Char) : Option Nat :=
  if '0' ≤ c ∧ c ≤ '9' then some (c.toNat - '0'.toNat)
  else if 'a' ≤ c ∧ c ≤ 'f' then some (c.toNat - 'a'.toNat + 10)
  else if 'A' ≤ c ∧ c ≤ 'F' then some (c.toNat - 'A'.toNat + 10)
  else none

/-- Decimal digit value. -/
def decDigitVal (c : Char) : Option Nat :=
  if '0' ≤ c ∧ c ≤ '9' then some (c.toNat - '0'.toNat) else none

/-- Fold a non-empty digit string. -/
def parseDigits (digitVal : Char → Option Nat) (base : Nat) :
    List Char → Option Nat
  | [] => none
  | cs =>
    cs.foldl
      (fun acc c =>
        match acc, digitVal c with
        | some n, some d => some (n * base + d)
        | _, _ => none)
      (some 0)

/-- `strconv.ParseInt(s, base, 64)` for an explicit base: an optional
sign followed by at least one digit (the 64-bit overflow check is not
modelled; all values compared against it in the source are tiny). -/
def parseGoInt (digitVal : Char → Option Nat) (base : Nat) (s : String) :
    Option Int :=
  match s.data with
  | '+' :: rest => (parseDigits digitVal base rest).map Int.ofNat
  | '-' :: rest => (parseDigits digitVal base rest).map (fun n => -(n : Int))
  | cs => (parseDigits digitVal base cs).map Int.ofNat

/-- `strconv.ParseInt(x, 16, 64)`. -/
def parseHexInt (s : String) : Option Int := parseGoInt hexDigitVal 16 s

/-- `strconv.ParseInt(x, 10, 64)`. -/
def parseDecInt (s : String) : Option Int := parseGoInt decDigitVal 10 s

/-- `consts.NetClass`. -/
def NetClass : Int := 2

/-- One `ghw` PCI device: address, class id (hex string), vendor id
and product id. -/
structure PciDeviceInfo where
  address : String
  classID : String
  vendorID : String
  productID : String
  deriving Repr, DecidableEq

/-- `host.VFInfo`. -/
structure VFInfo where
  pciAddress : String
  vfid : Int
  deviceID : String
  deriving Repr, DecidableEq

/-- `devicestate.PFInfo`. -/
structure PFInfo where
  pciAddress : String
  netName : String
  vendorID : String
  deviceID : String
  address : String
  eswitchMode : String
  numaNode : String
  pcieRoot : String
  parentPciAddress : String
  deriving Repr, DecidableEq

/-- The Host Capability Provider as consumed by discovery. -/
structure DiscoveryEnv where
  pci : Except String (List PciDeviceInfo)
  isSriovVF : String → Bool
  tryGetInterfaceName : String → String
  getNicSriovMode : String → String
  getNumaNode : String → Except String String
  getPCIeRoot : String → Except String String
  getParentPciAddress : String → Except String String
  getVFList : String → Except String (List VFInfo)

/-- The first discovery loop, per device: parse the class (skip on
failure), skip non-network classes, skip virtual functions, skip
devices with no resolvable interface name; enrich the retained
physical function with eswitch mode, NUMA node (default `"0"`), PCIe
root (default `""`) and parent address (default `""`). -/
def mkPF (env : DiscoveryEnv) (d : PciDeviceInfo) : Option PFInfo :=
  match parseHexInt d.classID with
  | none => none
  | some devClass =>
    if devClass ≠ NetClass then none
    else if env.isSriovVF d.address then none
    else
      let pfNetName := env.tryGetInterfaceName d.address
      if pfNetName = "" then none
      else
        some
          { pciAddress := d.address
            netName := pfNetName
            vendorID := d.vendorID
            deviceID := d.productID
            address := d.address
            eswitchMode := env.getNicSriovMode d.address
            numaNode :=
              match env.getNumaNode d.address with
              | .ok n => n
              | .error _ => "0"
            pcieRoot :=
              match env.getPCIeRoot d.address with
              | .ok r => r
              | .error _ => ""
            parentPciAddress :=
              match env.getParentPciAddress d.address with
              | .ok p => p
              | .error _ => "" }

/-- Device naming: every `:` and `.` of the VF's PCI address becomes
`-` (`strings.ReplaceAll` twice, with single-character patterns). -/
def normalizeName (pciAddress : String) : String :=
  String.mk (pciAddress.data.map (fun c => if c = ':' ∨ c = '.' then '-' else c))

/-- One `resourceapi.Device` of the allocatable-device table, with the
attribute set discovery publishes. -/
structure AllocDevice where
  name : String
  vendorID : String
  deviceID : String
  pfDeviceID : String
  pciAddress : String
  pfName : String
  eswitchMode : String
  vfid : Int
  numaNode : Int
  pcieRoot : String
  parentPciAddress : String
  deriving Repr, DecidableEq

/-- The device entry built for one VF of one PF (the NUMA attribute
parses the PF's NUMA string, defaulting to `-1` on failure). -/
def mkDevice (pf : PFInfo) (vf : VFInfo) : AllocDevice :=
  { name := normalizeName vf.pciAddress
    vendorID := pf.vendorID
    deviceID := vf.deviceID
    pfDeviceID := pf.deviceID
    pciAddress := vf.pciAddress
    pfName := pf.netName
    eswitchMode := pf.eswitchMode
    vfid := vf.vfid
    numaNode := (parseDecInt pf.numaNode).getD (-1)
    pcieRoot := pf.pcieRoot
    parentPciAddress := pf.parentPciAddress }

/-- The second discovery loop: list each retained PF's virtual
functions — a failure aborts the whole discovery — and add one named
device per VF to the resource table. -/
def addVFDevices (env : DiscoveryEnv) :
    List PFInfo → List (String × AllocDevice) →
    Except String (List (String × AllocDevice))
  | [], acc => .ok acc
  | pf :: rest, acc =>
    match env.getVFList pf.address with
    | .error e => .error ("error getting VF list: " ++ e)
    | .ok vfList =>
      addVFDevices env rest
        (vfList.foldl
          (fun a vf => upsertKey a (normalizeName vf.pciAddress) (mkDevice pf vf))
          acc)

/-- `DiscoverSriovDevices`: enumerate PCI devices (an empty
enumeration is an error), filter to network-class physical functions,
then enumerate their VFs into the allocatable-device table. -/
def DiscoverSriovDevices (env : DiscoveryEnv) :
    Except String (List (String × AllocDevice)) :=
  match env.pci with
  | .error e => .error ("error getting PCI info: " ++ e)
  | .ok devices =>
    if devices.isEmpty then .error "could not retrieve PCI devices"
    else addVFDevices env (devices.filterMap (mkPF env)) []

/-! ## Boolean views of the fragment sources, and concrete example
inputs used by counterexamples and witnesses. -/

/-- Class-level fragment test. -/
def isClassCfg (c : DeviceAllocationConfiguration) : Bool :=
  c.source = sourceClass

/-- Claim-level fragment test. -/
def isClaimCfg (c : DeviceAllocationConfiguration) : Bool :=
  c.source = sourceClaim

/-- A well-formed class-level fragment for this driver. -/
def mkClassFrag (requests : List String) (vf : VfConfig) :
    DeviceAllocationConfiguration :=
  { source := sourceClass
    requests := requests
    opaqueCfg := some { driver := DriverName, parameters := some vf } }

/-- A well-formed claim-level fragment for this driver. -/
def mkClaimFrag (requests : List String) (vf : VfConfig) :
    DeviceAllocationConfiguration :=
  { source := sourceClaim
    requests := requests
    opaqueCfg := some { driver := DriverName, parameters := some vf } }

/-- Example: a class-level fragment that requests a vhost mount and a
network-attachment namespace. -/
def exClassFrag : DeviceAllocationConfiguration :=
  mkClassFrag ["r"]
    { DefaultVfConfig with
        driver := "a", addVhostMount := true, netAttachDefNamespace := "nsA" }

/-- Example: a claim-level fragment that sets a different driver and
namespace. -/
def exClaimFrag : DeviceAllocationConfiguration :=
  mkClaimFrag ["r"]
    { DefaultVfConfig with driver := "b", netAttachDefNamespace := "nsB" }

/-- Example: a class-level fragment that only sets the
network-attachment namespace (to `nsA`). -/
def exClassNsFrag : DeviceAllocationConfiguration :=
  mkClassFrag ["r"] { DefaultVfConfig with netAttachDefNamespace := "nsA" }

/-- Example: a claim-level fragment that only sets the
network-attachment namespace (to `nsB`). -/
def exClaimNsFrag : DeviceAllocationConfiguration :=
  mkClaimFrag ["r"] { DefaultVfConfig with netAttachDefNamespace := "nsB" }

/-- Example class-level configuration setting all three overridable
fields. -/
def exVcA : VfConfig :=
  { DefaultVfConfig with driver := "a", ifName := "eth0", netAttachDefName := "net-a" }

/-- Example claim-level configuration setting all three overridable
fields. -/
def exVlB : VfConfig :=
  { DefaultVfConfig with driver := "b", ifName := "eth9", netAttachDefName := "net-b" }

/-- Example: a fragment addressed to some other DRA driver. -/
def exOtherDriverFrag : DeviceAllocationConfiguration :=
  { source := sourceClaim
    requests := ["r"]
    opaqueCfg := some { driver := "gpu.example.com", parameters := none } }

/-- Example: a fragment for this driver whose payload does not decode. -/
def exUndecodableFrag : DeviceAllocationConfiguration :=
  { source := sourceClaim
    requests := ["r"]
    opaqueCfg := some { driver := DriverName, parameters := none } }

/-- Example host: the VF `0000:01:00.1` is currently unbound, the
VFIO modules are loaded, `vfio-pci` and `ixgbe` driver directories
exist, and a kernel probe of the VF would bind `ixgbe`. -/
def exHost0 : HostState :=
  { drivers := []
    loadedModules := ["vfio", "vfio_pci"]
    availableModules := []
    knownDrivers := ["vfio-pci", "ixgbe"]
    overrideSupport := ["0000:01:00.1"]
    overrides := []
    probeTable := [("0000:01:00.1", "ixgbe")] }

/-- Example host where `0000:01:00.1` is bound to `ixgbe`. -/
def exHostIxgbe : HostState :=
  { exHost0 with drivers := [("0000:01:00.1", "ixgbe")] }

/-- Example configuration requesting the `vfio-pci` driver. -/
def exVfioCfg : VfConfig :=
  { DefaultVfConfig with driver := "vfio-pci", netAttachDefName := "test-network" }

/-- Example prepared device whose recorded original driver is empty
(the VF was unbound before preparation). -/
def exPreparedVfio : PreparedDevice :=
  { device :=
      { requestNames := ["r"], poolName := "pool", deviceName := "0000-01-00-1"
        cdiDeviceIDs := ["k8s.sriov/claim=cu"] }
    claimName := "claim-a"
    claimNamespace := "ns-a"
    claimUID := "cu"
    containerEdits := { env := [], deviceNodes := [] }
    config := exVfioCfg
    ifName := "net0"
    pciAddress := "0000:01:00.1"
    podUID := "pu"
    netAttachDefConfig := "{}"
    originalDriver := "" }

/-- Example prepared device whose recorded original driver is
`ixgbe`. -/
def exPreparedVfioFromIxgbe : PreparedDevice :=
  { exPreparedVfio with originalDriver := "ixgbe" }

/-- Example checksum function over the modelled snapshot bytes. -/
def exCk : Checkpoint → Nat := fun cp => cp.v1.length + 7

/-- Example ownership index: pod `p1` holds claims `c1` and `c2`,
pod `p2` holds claim `c3`. -/
def exIndex2 : PodIndex :=
  [("p1", [("c1", [exPreparedVfio]), ("c2", [exPreparedVfio])]),
   ("p2", [("c3", [exPreparedVfioFromIxgbe])])]

/-- Example pod-manager state over `exIndex2`. -/
def exPM2 : PMState := { index := exIndex2, snapshot := none, writes := 0 }

/-- Example driver state over `exPM2`. -/
def exDriverState2 : DriverState :=
  { pm := exPM2, host := exHost0, cdiSpecFiles := [] }

/-- Example driver state with an empty ownership store. -/
def exDriverState0 : DriverState :=
  { pm := { index := [], snapshot := none, writes := 0 }
    host := exHost0
    cdiSpecFiles := [] }

/-- Example driver state whose store already records (pod `pu`,
claim `cu`). -/
def exDriverStatePrepared : DriverState :=
  { exDriverState0 with
      pm := { index := [("pu", [("cu", [exPreparedVfio])])]
              snapshot := none, writes := 0 } }

/-- Example allocated claim reserved for pod `pu`. -/
def exClaim : Claim :=
  { name := "claim-a"
    namespace' := "ns-a"
    uid := "cu"
    reservedFor := ["pu"]
    allocation := some { results := [], config := [] } }

/-- Example device-state manager that prepares `exPreparedVfio`
without touching the host. -/
def exManagerEnv : ManagerEnv :=
  { prepareDevicesForClaim := fun host files idx _ =>
      (.ok [exPreparedVfio], host, files, idx) }

/-- Example PCI device: an Intel network-class physical function at
`0000:01:00.0`. -/
def exPF0 : PciDeviceInfo :=
  { address := "0000:01:00.0", classID := "02", vendorID := "8086"
    productID := "1572" }

/-- Example VF 0 of `exPF0`. -/
def exVF1 : VFInfo := { pciAddress := "0000:01:00.1", vfid := 0, deviceID := "154c" }

/-- Example VF 1 of `exPF0`. -/
def exVF2 : VFInfo := { pciAddress := "0000:01:00.2", vfid := 1, deviceID := "154c" }

/-- Example discovery host: one network PF with two VFs. -/
def exDiscEnv : DiscoveryEnv :=
  { pci := .ok [exPF0]
    isSriovVF := fun _ => false
    tryGetInterfaceName := fun a => if a = "0000:01:00.0" then "ens1f0" else ""
    getNicSriovMode := fun _ => "legacy"
    getNumaNode := fun _ => .ok "0"
    getPCIeRoot := fun _ => .ok "pci0000:00"
    getParentPciAddress := fun _ => .ok ""
    getVFList := fun a =>
      if a = "0000:01:00.0" then .ok [exVF1, exVF2]
      else .error "no such device" }

/-- Example non-network PCI device (a USB controller, class `0c`). -/
def exUsbDev : PciDeviceInfo :=
  { address := "0000:02:00.0", classID := "0c", vendorID := "8086"
    productID := "1234" }

/-- Example PCI enumeration holding only the USB controller. -/
def exUsbList : List PciDeviceInfo := [exUsbDev]

/-- Example discovery host whose only PCI device is a non-network USB
controller. -/
def exDiscEnvNoNet : DiscoveryEnv :=
  { exDiscEnv with pci := .ok exUsbList }

/-- Example discovery host where VF listing fails. -/
def exDiscEnvVfFail : DiscoveryEnv :=
  { exDiscEnv with getVFList := fun _ => .error "vf listing failed" }

/-- The `PFInfo` the example discovery host yields for `exPF0`. -/
def exPFInfo : PFInfo :=
  { pciAddress := "0000:01:00.0", netName := "ens1f0", vendorID := "8086"
    deviceID := "1572", address := "0000:01:00.0", eswitchMode := "legacy"
    numaNode := "0", pcieRoot := "pci0000:00", parentPciAddress := "" }

/-- The device table the example discovery host yields. -/
def exDiscResult : List (String × AllocDevice) :=
  [("0000-01-00-1", mkDevice exPFInfo exVF1),
   ("0000-01-00-2", mkDevice exPFInfo exVF2)]

/-! # Theorems

Helper lemmas first, then one theorem per claim (with its witness or
counterexample). -/

theorem lookupCfg_upsertCfg_self (m : List (String × VfConfig)) (k : String)
    (v : VfConfig) : lookupCfg (upsertCfg m k v) k = some v := by
  induction m with
  | nil => simp [upsertCfg, lookupCfg]
  | cons p rest ih =>
    obtain ⟨k', w⟩ := p
    by_cases hk : k' = k
    · simp [upsertCfg, hk, lookupCfg]
    · simp [upsertCfg, hk, lookupCfg, ih]

theorem lookupCfg_upsertCfg_ne (m : List (String × VfConfig)) (k r : String)
    (v : VfConfig) (h : k ≠ r) :
    lookupCfg (upsertCfg m k v) r = lookupCfg m r := by
  induction m with
  | nil => simp [upsertCfg, lookupCfg, h]
  | cons p rest ih =>
    obtain ⟨k', w⟩ := p
    by_cases hk : k' = k
    · subst hk
      simp [upsertCfg, lookupCfg, h]
    · simp [upsertCfg, hk, lookupCfg, ih]

theorem lookupCfg_ne_nil (m : List (String × VfConfig)) (r : String)
    (c : VfConfig) (h : lookupCfg m r = some c) : m.isEmpty = false := by
  cases m with
  | nil => simp [lookupCfg] at h
  | cons p rest => simp [List.isEmpty]

/-- `Override` writes the requested driver whenever it is
non-empty. -/
theorem Override_driver_of_ne (c vf : VfConfig) (h : vf.driver ≠ "") :
    (c.Override vf).driver = vf.driver := by
  unfold VfConfig.Override
  split_ifs <;> simp_all

/-- `Override` writes the requested container interface name whenever
it is non-empty. -/
theorem Override_ifName_of_ne (c vf : VfConfig) (h : vf.ifName ≠ "") :
    (c.Override vf).ifName = vf.ifName := by
  unfold VfConfig.Override
  split_ifs <;> simp_all

/-- `Override` writes the requested network-attachment name whenever
it is non-empty. -/
theorem Override_netAttachDefName_of_ne (c vf : VfConfig)
    (h : vf.netAttachDefName ≠ "") :
    (c.Override vf).netAttachDefName = vf.netAttachDefName := by
  unfold VfConfig.Override
  split_ifs <;> simp_all

/-- `Override` never touches the namespace override or the vhost
flag. -/
theorem Override_keeps_namespace_vhost (c vf : VfConfig) :
    (c.Override vf).netAttachDefNamespace = c.netAttachDefNamespace ∧
    (c.Override vf).addVhostMount = c.addVhostMount := by
  unfold VfConfig.Override
  split_ifs <;> simp_all

/-- Core fact behind the precedence theorems, generic in the observed
field: if overriding with `vf` always sets the field `proj` to `v`,
then after folding a fragment targeting `r` (or starting from an
accumulator already carrying `v` at `r`), the resolved config at `r`
carries `v`. -/
theorem applyFragment_field (proj : VfConfig → String) (vf : VfConfig)
    (v : String) (hstep : ∀ c : VfConfig, proj (c.Override vf) = v) :
    ∀ (reqs : List String) (m : List (String × VfConfig)) (r : String),
      (r ∈ reqs ∨ ∃ c, lookupCfg m r = some c ∧ proj c = v) →
      ∃ c, lookupCfg (applyFragment m reqs vf) r = some c ∧ proj c = v := by
  intro reqs
  induction reqs with
  | nil =>
    intro m r h
    rcases h with h | h
    · simp at h
    · simpa [applyFragment] using h
  | cons q rest ih =>
    intro m r h
    have step :
        applyFragment m (q :: rest) vf =
          applyFragment
            (upsertCfg m q (((lookupCfg m q).getD DefaultVfConfig).Override vf))
            rest vf := by
      simp [applyFragment]
    rw [step]
    set m' := upsertCfg m q (((lookupCfg m q).getD DefaultVfConfig).Override vf) with hm'
    by_cases hrq : q = r
    · subst hrq
      refine ih m' q (Or.inr ?_)
      refine ⟨((lookupCfg m q).getD DefaultVfConfig).Override vf, ?_, ?_⟩
      · exact lookupCfg_upsertCfg_self m q _
      · exact hstep _
    · rcases h with h | ⟨c, hc, hcd⟩
      · rcases List.mem_cons.mp h with h | h
        · exact absurd h.symm hrq
        · exact ih m' r (Or.inl h)
      · refine ih m' r (Or.inr ⟨c, ?_, hcd⟩)
        rw [hm', lookupCfg_upsertCfg_ne m q r _ hrq, hc]

/-- Folding a fragment preserves any config invariant that holds of
the default config and is preserved by `Override`. -/
theorem applyFragment_inv (P : VfConfig → Prop) (vf : VfConfig)
    (hOv : ∀ c, P c → P (c.Override vf)) (hPd : P DefaultVfConfig) :
    ∀ (reqs : List String) (m : List (String × VfConfig)),
      (∀ r c, lookupCfg m r = some c → P c) →
      ∀ r c, lookupCfg (applyFragment m reqs vf) r = some c → P c := by
  intro reqs
  induction reqs with
  | nil =>
    intro m hm r c h
    exact hm r c (by simpa [applyFragment] using h)
  | cons q rest ih =>
    intro m hm r c h
    rw [show applyFragment m (q :: rest) vf =
        applyFragment
          (upsertCfg m q (((lookupCfg m q).getD DefaultVfConfig).Override vf))
          rest vf from by simp [applyFragment]] at h
    refine ih _ ?_ r c h
    intro r' c' h'
    by_cases hq : q = r'
    · subst hq
      rw [lookupCfg_upsertCfg_self] at h'
      injection h' with h'
      subst h'
      cases hlk : lookupCfg m q with
      | none => simpa [hlk] using hOv DefaultVfConfig hPd
      | some c0 => simpa [hlk] using hOv c0 (hm q c0 hlk)
    · rw [lookupCfg_upsertCfg_ne m q r' _ hq] at h'
      exact hm r' c' h'

/-- CLAIM C4 (amended): field-level override semantics of
`VfConfig.Override` — `driver`, `ifName` and `netAttachDefName` are
overridden exactly when the overriding value is non-empty (an empty
value never erases a previously set one), while
`netAttachDefNamespace` and `addVhostMount` are never modified by an
override. -/
theorem override_field_semantics (c other : VfConfig) :
    (c.Override other).driver = (if other.driver = "" then c.driver else other.driver) ∧
    (c.Override other).ifName = (if other.ifName = "" then c.ifName else other.ifName) ∧
    (c.Override other).netAttachDefName =
      (if other.netAttachDefName = "" then c.netAttachDefName else other.netAttachDefName) ∧
    (c.Override other).netAttachDefNamespace = c.netAttachDefNamespace ∧
    (c.Override other).addVhostMount = c.addVhostMount := by
  unfold VfConfig.Override
  split_ifs <;> simp_all

/-- CLAIM C4, counterexample to the claim as stated: a class-level
fragment sets `addVhostMount := true` and `netAttachDefNamespace :=
"nsA"`, a claim-level fragment sets `netAttachDefNamespace := "nsB"`;
resolution is supposed to yield `addVhostMount = true` (non-default
value applied) and `netAttachDefNamespace = "nsB"` (claim overrides
class), but the code yields the defaults `false` and `""` for both
fields. -/
theorem override_namespace_vhost_cex :
    getMapOfOpaqueDeviceConfigForDevice [exClassFrag, exClaimFrag] =
      .ok [("r",
        { driver := "b", addVhostMount := false, ifName := "",
          netAttachDefName := "", netAttachDefNamespace := "" })] ∧
    ("" : String) ≠ "nsB" ∧ false ≠ true := by
  refine ⟨by rfl, by simp, by simp⟩

theorem sourceClass_ne_sourceClaim : sourceClass ≠ sourceClaim := by
  decide

theorem sourceClass_eq_sourceClaim_false : (sourceClass = sourceClaim) = False := by
  simp [sourceClass_ne_sourceClaim]

theorem sourceClaim_eq_sourceClass_false : (sourceClaim = sourceClass) = False := by
  simp
  exact fun contra => sourceClass_ne_sourceClaim contra.symm

/-- With only valid sources, the partition loop returns the class and
claim fragments in their given orders. -/
theorem splitConfigs_ok :
    ∀ cfgs : List DeviceAllocationConfiguration,
      (∀ c ∈ cfgs, c.source = sourceClass ∨ c.source = sourceClaim) →
      splitConfigs cfgs = .ok (cfgs.filter isClassCfg, cfgs.filter isClaimCfg) := by
  intro cfgs
  induction cfgs with
  | nil => intro _; simp [splitConfigs]
  | cons c rest ih =>
    intro h
    have hc := h c (List.mem_cons_self c rest)
    have hrest := ih fun x hx => h x (List.mem_cons_of_mem _ hx)
    rcases hc with hc | hc
    · have hne : ¬ c.source = sourceClaim := by
        rw [hc]; exact sourceClass_ne_sourceClaim
      simp [splitConfigs, hc, hrest, isClassCfg, isClaimCfg, hne,
        List.filter_cons, sourceClass_eq_sourceClaim_false]
    · have hne : ¬ c.source = sourceClass := by
        rw [hc]; exact fun contra => sourceClass_ne_sourceClaim contra.symm
      simp [splitConfigs, hc, hrest, isClassCfg, isClaimCfg, hne,
        List.filter_cons, sourceClaim_eq_sourceClass_false]

/-- Splitting the already-partitioned concatenation returns it
unchanged. -/
theorem splitConfigs_partitioned (cfgs : List DeviceAllocationConfiguration)
    (h : ∀ c ∈ cfgs, c.source = sourceClass ∨ c.source = sourceClaim) :
    splitConfigs (cfgs.filter isClassCfg ++ cfgs.filter isClaimCfg) =
      .ok (cfgs.filter isClassCfg, cfgs.filter isClaimCfg) := by
  have hvalid : ∀ c ∈ cfgs.filter isClassCfg ++ cfgs.filter isClaimCfg,
      c.source = sourceClass ∨ c.source = sourceClaim := by
    intro x hx
    rcases List.mem_append.mp hx with hx | hx
    · exact h x (List.mem_of_mem_filter hx)
    · exact h x (List.mem_of_mem_filter hx)
  rw [splitConfigs_ok _ hvalid, List.filter_append, List.filter_append]
  have hclassTrue : (cfgs.filter isClassCfg).filter isClassCfg = cfgs.filter isClassCfg :=
    List.filter_eq_self.mpr fun a ha => List.of_mem_filter ha
  have hclaimTrue : (cfgs.filter isClaimCfg).filter isClaimCfg = cfgs.filter isClaimCfg :=
    List.filter_eq_self.mpr fun a ha => List.of_mem_filter ha
  have hclassOnClaim : (cfgs.filter isClaimCfg).filter isClassCfg = [] := by
    rw [List.filter_eq_nil_iff]
    intro a ha
    have := List.of_mem_filter ha
    simp only [isClaimCfg, decide_eq_true_eq] at this
    simp only [isClassCfg, this, decide_eq_true_eq]
    exact fun contra => sourceClass_ne_sourceClaim contra.symm
  have hclaimOnClass : (cfgs.filter isClassCfg).filter isClaimCfg = [] := by
    rw [List.filter_eq_nil_iff]
    intro a ha
    have := List.of_mem_filter ha
    simp only [isClassCfg, decide_eq_true_eq] at this
    simp only [isClaimCfg, this, decide_eq_true_eq]
    exact sourceClass_ne_sourceClaim
  rw [hclassTrue, hclaimTrue, hclassOnClaim, hclaimOnClass,
    List.append_nil, List.nil_append]

/-- The resolver on a claim-level fragment followed by a class-level
fragment: class applied first, then claim, independent of the input
order (the nonempty-result check is discharged by the targeted
request). -/
theorem getMap_claim_then_class (rc rl : List String) (vc vl : VfConfig)
    (r : String) (hrl : r ∈ rl) :
    getMapOfOpaqueDeviceConfigForDevice [mkClaimFrag rl vl, mkClassFrag rc vc] =
      .ok (applyFragment (applyFragment [] rc vc) rl vl) := by
  obtain ⟨c0, hc0, _⟩ :=
    applyFragment_field (fun _ => "") vl "" (fun _ => rfl) rl
      (applyFragment [] rc vc) r (Or.inl hrl)
  have hsplit : splitConfigs [mkClaimFrag rl vl, mkClassFrag rc vc] =
      .ok ([mkClassFrag rc vc], [mkClaimFrag rl vl]) := by
    simp [splitConfigs, mkClassFrag, mkClaimFrag, sourceClass, sourceClaim]
  unfold getMapOfOpaqueDeviceConfigForDevice
  rw [hsplit]
  simp only [List.singleton_append, mergeCandidates, mkClassFrag, mkClaimFrag,
    ne_eq, not_true_eq_false, if_false]
  rw [lookupCfg_ne_nil _ r c0 hc0]
  simp

/-- The resolver on two claim-level fragments: both applied in their
given order. -/
theorem getMap_two_claim_frags (r1 r2 : List String) (v1 v2 : VfConfig)
    (r : String) (hr2 : r ∈ r2) :
    getMapOfOpaqueDeviceConfigForDevice [mkClaimFrag r1 v1, mkClaimFrag r2 v2] =
      .ok (applyFragment (applyFragment [] r1 v1) r2 v2) := by
  obtain ⟨c0, hc0, _⟩ :=
    applyFragment_field (fun _ => "") v2 "" (fun _ => rfl) r2
      (applyFragment [] r1 v1) r (Or.inl hr2)
  have hsplit : splitConfigs [mkClaimFrag r1 v1, mkClaimFrag r2 v2] =
      .ok ([], [mkClaimFrag r1 v1, mkClaimFrag r2 v2]) := by
    simp [splitConfigs, mkClaimFrag, sourceClass, sourceClaim]
  unfold getMapOfOpaqueDeviceConfigForDevice
  rw [hsplit]
  simp only [List.nil_append, mergeCandidates, mkClaimFrag,
    ne_eq, not_true_eq_false, if_false]
  rw [lookupCfg_ne_nil _ r c0 hc0]
  simp

/-- Inversion of a successful resolution run. -/
theorem getMap_ok_inv (cfgs : List DeviceAllocationConfiguration)
    (res : List (String × VfConfig))
    (h : getMapOfOpaqueDeviceConfigForDevice cfgs = .ok res) :
    ∃ cls clm, splitConfigs cfgs = .ok (cls, clm) ∧
      mergeCandidates (cls ++ clm) [] = .ok res := by
  unfold getMapOfOpaqueDeviceConfigForDevice at h
  cases hs : splitConfigs cfgs with
  | error e => rw [hs] at h; simp at h
  | ok p =>
    obtain ⟨cls, clm⟩ := p
    rw [hs] at h
    dsimp only at h
    cases hm : mergeCandidates (cls ++ clm) [] with
    | error e => rw [hm] at h; simp at h
    | ok res0 =>
      rw [hm] at h
      dsimp only at h
      by_cases hemp : res0.isEmpty
      · rw [if_pos hemp] at h; simp at h
      · rw [if_neg hemp] at h
        injection h with h
        exact ⟨cls, clm, rfl, by rw [hm, h]⟩

/-- The merge loop preserves any config invariant that holds of the
default config and is preserved by `Override`. -/
theorem mergeCandidates_inv (P : VfConfig → Prop)
    (hOv : ∀ c vf, P c → P (c.Override vf)) (hPd : P DefaultVfConfig) :
    ∀ (l : List DeviceAllocationConfiguration)
      (acc res : List (String × VfConfig)),
      mergeCandidates l acc = .ok res →
      (∀ r c, lookupCfg acc r = some c → P c) →
      ∀ r c, lookupCfg res r = some c → P c := by
  intro l
  induction l with
  | nil =>
    intro acc res h hacc r c hl
    simp only [mergeCandidates, Except.ok.injEq] at h
    subst h
    exact hacc r c hl
  | cons frag rest ih =>
    intro acc res h hacc r c hl
    cases hf : frag.opaqueCfg with
    | none =>
      simp only [mergeCandidates, hf] at h
      exact absurd h (by simp)
    | some op =>
      simp only [mergeCandidates, hf] at h
      by_cases hd : op.driver = DriverName
      · simp only [hd, ne_eq, not_true_eq_false, if_false] at h
        cases hp : op.parameters with
        | none =>
          simp only [hp] at h
          exact absurd h (by simp)
        | some vf =>
          simp only [hp] at h
          exact ih _ res h
            (applyFragment_inv P vf (fun c' hc' => hOv c' vf hc') hPd
              frag.requests acc hacc)
            r c hl
      · simp only [ne_eq, hd, not_false_eq_true, if_true] at h
        exact ih acc res h hacc r c hl

/-- CLAIM C3 (amended): two-pass precedence — (1) resolution of any
valid fragment list equals resolution of the reordered list with all
class-level fragments first then all claim-level fragments, i.e. the
original interleaving of the two levels is irrelevant; (2) for each
overridable field (`driver`, `ifName`, `netAttachDefName`), a
claim-level fragment's non-empty value wins over a class-level
fragment for the same request even when the claim-level fragment
comes first in the input; (3) within one source level, the later
fragment's non-empty value for each of those fields wins; (4) the
remaining fields `netAttachDefNamespace` and `addVhostMount` are
never overridden: every resolved configuration carries their
defaults `""` and `false`.  (The unamended per-field claim fails for
those two fields — see the counterexample.) -/
theorem two_pass_precedence :
    (∀ cfgs : List DeviceAllocationConfiguration,
      (∀ c ∈ cfgs, c.source = sourceClass ∨ c.source = sourceClaim) →
      getMapOfOpaqueDeviceConfigForDevice cfgs =
        getMapOfOpaqueDeviceConfigForDevice
          (cfgs.filter isClassCfg ++ cfgs.filter isClaimCfg)) ∧
    (∀ (rc rl : List String) (r : String) (vc vl : VfConfig),
      r ∈ rc → r ∈ rl →
      (vl.driver ≠ "" →
        (getMapOfOpaqueDeviceConfigForDevice
            [mkClaimFrag rl vl, mkClassFrag rc vc]).toOption.bind
          (fun m => (lookupCfg m r).map (fun c => c.driver)) = some vl.driver) ∧
      (vl.ifName ≠ "" →
        (getMapOfOpaqueDeviceConfigForDevice
            [mkClaimFrag rl vl, mkClassFrag rc vc]).toOption.bind
          (fun m => (lookupCfg m r).map (fun c => c.ifName)) = some vl.ifName) ∧
      (vl.netAttachDefName ≠ "" →
        (getMapOfOpaqueDeviceConfigForDevice
            [mkClaimFrag rl vl, mkClassFrag rc vc]).toOption.bind
          (fun m => (lookupCfg m r).map (fun c => c.netAttachDefName)) =
          some vl.netAttachDefName)) ∧
    (∀ (r1 r2 : List String) (r : String) (v1 v2 : VfConfig),
      r ∈ r1 → r ∈ r2 →
      (v2.driver ≠ "" →
        (getMapOfOpaqueDeviceConfigForDevice
            [mkClaimFrag r1 v1, mkClaimFrag r2 v2]).toOption.bind
          (fun m => (lookupCfg m r).map (fun c => c.driver)) = some v2.driver) ∧
      (v2.ifName ≠ "" →
        (getMapOfOpaqueDeviceConfigForDevice
            [mkClaimFrag r1 v1, mkClaimFrag r2 v2]).toOption.bind
          (fun m => (lookupCfg m r).map (fun c => c.ifName)) = some v2.ifName) ∧
      (v2.netAttachDefName ≠ "" →
        (getMapOfOpaqueDeviceConfigForDevice
            [mkClaimFrag r1 v1, mkClaimFrag r2 v2]).toOption.bind
          (fun m => (lookupCfg m r).map (fun c => c.netAttachDefName)) =
          some v2.netAttachDefName)) ∧
    (∀ (cfgs : List DeviceAllocationConfiguration)
      (res : List (String × VfConfig)) (r : String) (c : VfConfig),
      getMapOfOpaqueDeviceConfigForDevice cfgs = .ok res →
      lookupCfg res r = some c →
      c.netAttachDefNamespace = "" ∧ c.addVhostMount = false) := by
  refine ⟨?_, ?_, ?_, ?_⟩
  · intro cfgs h
    unfold getMapOfOpaqueDeviceConfigForDevice
    rw [splitConfigs_ok cfgs h, splitConfigs_partitioned cfgs h]
  · intro rc rl r vc vl _ hrl
    have hmap := getMap_claim_then_class rc rl vc vl r hrl
    refine ⟨?_, ?_, ?_⟩
    · intro hvl
      obtain ⟨c, hc, hcd⟩ :=
        applyFragment_field (fun c => c.driver) vl vl.driver
          (fun c => Override_driver_of_ne c vl hvl) rl
          (applyFragment [] rc vc) r (Or.inl hrl)
      rw [hmap]
      simp [Except.toOption, hc, hcd]
    · intro hvl
      obtain ⟨c, hc, hcd⟩ :=
        applyFragment_field (fun c => c.ifName) vl vl.ifName
          (fun c => Override_ifName_of_ne c vl hvl) rl
          (applyFragment [] rc vc) r (Or.inl hrl)
      rw [hmap]
      simp [Except.toOption, hc, hcd]
    · intro hvl
      obtain ⟨c, hc, hcd⟩ :=
        applyFragment_field (fun c => c.netAttachDefName) vl vl.netAttachDefName
          (fun c => Override_netAttachDefName_of_ne c vl hvl) rl
          (applyFragment [] rc vc) r (Or.inl hrl)
      rw [hmap]
      simp [Except.toOption, hc, hcd]
  · intro r1 r2 r v1 v2 _ hr2
    have hmap := getMap_two_claim_frags r1 r2 v1 v2 r hr2
    refine ⟨?_, ?_, ?_⟩
    · intro hv2
      obtain ⟨c, hc, hcd⟩ :=
        applyFragment_field (fun c => c.driver) v2 v2.driver
          (fun c => Override_driver_of_ne c v2 hv2) r2
          (applyFragment [] r1 v1) r (Or.inl hr2)
      rw [hmap]
      simp [Except.toOption, hc, hcd]
    · intro hv2
      obtain ⟨c, hc, hcd⟩ :=
        applyFragment_field (fun c => c.ifName) v2 v2.ifName
          (fun c => Override_ifName_of_ne c v2 hv2) r2
          (applyFragment [] r1 v1) r (Or.inl hr2)
      rw [hmap]
      simp [Except.toOption, hc, hcd]
    · intro hv2
      obtain ⟨c, hc, hcd⟩ :=
        applyFragment_field (fun c => c.netAttachDefName) v2 v2.netAttachDefName
          (fun c => Override_netAttachDefName_of_ne c v2 hv2) r2
          (applyFragment [] r1 v1) r (Or.inl hr2)
      rw [hmap]
      simp [Except.toOption, hc, hcd]
  · intro cfgs res r c hmap hlook
    obtain ⟨cls, clm, hsplit, hmerge⟩ := getMap_ok_inv cfgs res hmap
    refine mergeCandidates_inv
      (fun c => c.netAttachDefNamespace = "" ∧ c.addVhostMount = false)
      (fun c' vf' hc' => ?_) ⟨rfl, rfl⟩ (cls ++ clm) [] res hmerge ?_ r c hlook
    · obtain ⟨h1, h2⟩ := Override_keeps_namespace_vhost c' vf'
      exact ⟨h1.trans hc'.1, h2.trans hc'.2⟩
    · intro r' c' h'
      simp [lookupCfg] at h'

/-- CLAIM C3, counterexample to the claim as stated: the claim
quantifies over every field, but for `netAttachDefNamespace` a
class-level fragment setting `nsA` followed by a claim-level fragment
setting the non-empty `nsB` resolves to the default `""` — the
claim-level value does not override the class-level value, and the
later-applied fragment does not win; the field is simply never
written. -/
theorem two_pass_per_field_cex :
    getMapOfOpaqueDeviceConfigForDevice [exClassNsFrag, exClaimNsFrag] =
      .ok [("r", DefaultVfConfig)] ∧
    DefaultVfConfig.netAttachDefNamespace = "" ∧
    ("" : String) ≠ "nsB" ∧ ("" : String) ≠ "nsA" := by
  refine ⟨by rfl, rfl, by simp, by simp⟩

/-- Witness for the amended two-pass precedence theorem at concrete
inputs: the example class/claim fragments; the claim-first two-level
pair, whose claim-level `driver`/`ifName`/`netAttachDefName` values
all win; and a concrete resolved config carrying the never-overridden
defaults. -/
theorem two_pass_precedence_witness :
    (getMapOfOpaqueDeviceConfigForDevice [exClassFrag, exClaimFrag] =
      getMapOfOpaqueDeviceConfigForDevice
        ([exClassFrag, exClaimFrag].filter isClassCfg ++
          [exClassFrag, exClaimFrag].filter isClaimCfg)) ∧
    ((getMapOfOpaqueDeviceConfigForDevice
        [mkClaimFrag ["r"] exVlB, mkClassFrag ["r"] exVcA]).toOption.bind
      (fun m => (lookupCfg m "r").map (fun c => c.driver)) = some "b") ∧
    ((getMapOfOpaqueDeviceConfigForDevice
        [mkClaimFrag ["r"] exVlB, mkClassFrag ["r"] exVcA]).toOption.bind
      (fun m => (lookupCfg m "r").map (fun c => c.ifName)) = some "eth9") ∧
    ((getMapOfOpaqueDeviceConfigForDevice
        [mkClaimFrag ["r"] exVlB, mkClassFrag ["r"] exVcA]).toOption.bind
      (fun m => (lookupCfg m "r").map (fun c => c.netAttachDefName)) =
      some "net-b") ∧
    ((getMapOfOpaqueDeviceConfigForDevice
        [mkClaimFrag ["r"] exVcA, mkClaimFrag ["r"] exVlB]).toOption.bind
      (fun m => (lookupCfg m "r").map (fun c => c.ifName)) = some "eth9") ∧
    (DefaultVfConfig.netAttachDefNamespace = "" ∧
      DefaultVfConfig.addVhostMount = false) := by
  have h2 := two_pass_precedence.2.1 ["r"] ["r"] "r" exVcA exVlB
    (by simp) (by simp)
  have h3 := two_pass_precedence.2.2.1 ["r"] ["r"] "r" exVcA exVlB
    (by simp) (by simp)
  refine ⟨?_, h2.1 (by decide), h2.2.1 (by decide), h2.2.2 (by decide),
    h3.2.1 (by decide), ?_⟩
  · exact two_pass_precedence.1 [exClassFrag, exClaimFrag]
      (by intro c hc; fin_cases hc <;> simp [exClassFrag, exClaimFrag,
        mkClassFrag, mkClaimFrag])
  · exact two_pass_precedence.2.2.2 [exClassNsFrag, exClaimNsFrag]
      [("r", DefaultVfConfig)] "r" DefaultVfConfig (by rfl) (by rfl)

/-- A fragment for another driver is skipped by the merge loop no
matter where it sits among the candidates. -/
theorem mergeCandidates_skip (frag : DeviceAllocationConfiguration)
    (op : OpaquePayload) (hop : frag.opaqueCfg = some op)
    (hdrv : op.driver ≠ DriverName) :
    ∀ (l1 l2 : List DeviceAllocationConfiguration) (acc : List (String × VfConfig)),
      mergeCandidates (l1 ++ frag :: l2) acc = mergeCandidates (l1 ++ l2) acc := by
  intro l1
  induction l1 with
  | nil =>
    intro l2 acc
    simp [mergeCandidates, hop, hdrv]
  | cons c rest ih =>
    intro l2 acc
    simp only [List.cons_append, mergeCandidates]
    cases hc : c.opaqueCfg with
    | none => rfl
    | some op' =>
      by_cases hd : op'.driver = DriverName
      · simp only [hd, ne_eq, not_true_eq_false, if_false]
        cases hp : op'.parameters with
        | none => rfl
        | some vf => exact ih l2 (applyFragment acc c.requests vf)
      · simp only [ne_eq, hd, not_false_eq_true, if_true]
        exact ih l2 acc

/-- An invalid source makes the partition loop fail. -/
theorem splitConfigs_error_of_invalid
    (cfgs : List DeviceAllocationConfiguration)
    (h : ¬ ∀ c ∈ cfgs, c.source = sourceClass ∨ c.source = sourceClaim) :
    ∃ e, splitConfigs cfgs = .error e := by
  induction cfgs with
  | nil => exact absurd (by simp) h
  | cons c rest ih =>
    by_cases hc : c.source = sourceClass
    · have hres : ¬ ∀ x ∈ rest, x.source = sourceClass ∨ x.source = sourceClaim := by
        intro hall
        exact h fun x hx => by
          rcases List.mem_cons.mp hx with hx | hx
          · exact hx ▸ Or.inl hc
          · exact hall x hx
      obtain ⟨e, he⟩ := ih hres
      exact ⟨e, by simp [splitConfigs, hc, he]⟩
    · by_cases hc2 : c.source = sourceClaim
      · have hres : ¬ ∀ x ∈ rest, x.source = sourceClass ∨ x.source = sourceClaim := by
          intro hall
          exact h fun x hx => by
            rcases List.mem_cons.mp hx with hx | hx
            · exact hx ▸ Or.inr hc2
            · exact hall x hx
        obtain ⟨e, he⟩ := ih hres
        exact ⟨e, by simp [splitConfigs, hc, hc2, he]⟩
      · exact ⟨"invalid config source: " ++ c.source, by simp [splitConfigs, hc, hc2]⟩

/-- A fragment with an absent payload, or an undecodable payload
addressed to this driver, makes the merge loop fail. -/
theorem mergeCandidates_error_of_bad (frag : DeviceAllocationConfiguration)
    (hbad : frag.opaqueCfg = none ∨
      ∃ op, frag.opaqueCfg = some op ∧ op.driver = DriverName ∧ op.parameters = none) :
    ∀ (l : List DeviceAllocationConfiguration) (acc : List (String × VfConfig)),
      frag ∈ l → ∃ e, mergeCandidates l acc = .error e := by
  intro l
  induction l with
  | nil => intro acc h; simp at h
  | cons c rest ih =>
    intro acc hmem
    rcases List.mem_cons.mp hmem with heq | hmem'
    · subst heq
      rcases hbad with h | ⟨op, hop, hdrv, hpar⟩
      · exact ⟨"only opaque parameters are supported by this driver",
          by simp [mergeCandidates, h]⟩
      · exact ⟨"error decoding config parameters",
          by simp [mergeCandidates, hop, hdrv, hpar]⟩
    · cases hc : c.opaqueCfg with
      | none => exact ⟨"only opaque parameters are supported by this driver",
          by simp [mergeCandidates, hc]⟩
      | some op' =>
        by_cases hd : op'.driver = DriverName
        · cases hp : op'.parameters with
          | none => exact ⟨"error decoding config parameters",
              by simp [mergeCandidates, hc, hd, hp]⟩
          | some vf =>
            obtain ⟨e, he⟩ := ih (applyFragment acc c.requests vf) hmem'
            exact ⟨e, by simp [mergeCandidates, hc, hd, hp, he]⟩
        · obtain ⟨e, he⟩ := ih acc hmem'
          exact ⟨e, by simp [mergeCandidates, hc, hd, he]⟩

/-- Unfolding of the resolver once the partition is known. -/
theorem getMap_eq (cfgs cls clm : List DeviceAllocationConfiguration)
    (h : splitConfigs cfgs = .ok (cls, clm)) :
    getMapOfOpaqueDeviceConfigForDevice cfgs =
      match mergeCandidates (cls ++ clm) [] with
      | .error e => .error e
      | .ok res =>
        if res.isEmpty then .error "no configs constructed for driver"
        else .ok res := by
  unfold getMapOfOpaqueDeviceConfigForDevice
  rw [h]

/-- CLAIM C8: (1) a fragment whose opaque payload names another driver
is skipped silently — removing it from the input list leaves the
resolution result unchanged; (2) a fragment whose opaque payload is
absent, or whose payload addressed to this driver does not decode,
makes the whole resolution fail. -/
theorem fragment_filter_and_decode :
    (∀ (pre post : List DeviceAllocationConfiguration)
      (frag : DeviceAllocationConfiguration) (op : OpaquePayload),
      (∀ c ∈ pre ++ frag :: post, c.source = sourceClass ∨ c.source = sourceClaim) →
      frag.opaqueCfg = some op → op.driver ≠ DriverName →
      getMapOfOpaqueDeviceConfigForDevice (pre ++ frag :: post) =
        getMapOfOpaqueDeviceConfigForDevice (pre ++ post)) ∧
    (∀ (cfgs : List DeviceAllocationConfiguration)
      (frag : DeviceAllocationConfiguration),
      frag ∈ cfgs →
      (frag.opaqueCfg = none ∨
        ∃ op, frag.opaqueCfg = some op ∧ op.driver = DriverName ∧ op.parameters = none) →
      (getMapOfOpaqueDeviceConfigForDevice cfgs).toOption = none) := by
  constructor
  · intro pre post frag op hvalid hop hdrv
    have hvalid' : ∀ c ∈ pre ++ post, c.source = sourceClass ∨ c.source = sourceClaim := by
      intro x hx
      refine hvalid x ?_
      rcases List.mem_append.mp hx with hx | hx
      · exact List.mem_append.mpr (Or.inl hx)
      · exact List.mem_append.mpr (Or.inr (List.mem_cons_of_mem _ hx))
    have hsplit1 := splitConfigs_ok _ hvalid
    have hsplit2 := splitConfigs_ok _ hvalid'
    have hfrag := hvalid frag (List.mem_append.mpr (Or.inr (List.mem_cons_self _ _)))
    rw [getMap_eq _ _ _ hsplit1, getMap_eq _ _ _ hsplit2]
    rcases hfrag with hfc | hfc
    · have hfilterClass :
          (pre ++ frag :: post).filter isClassCfg =
            pre.filter isClassCfg ++ frag :: post.filter isClassCfg := by
        simp [List.filter_append, List.filter_cons, isClassCfg, hfc]
      have hfilterClaim :
          (pre ++ frag :: post).filter isClaimCfg =
            pre.filter isClaimCfg ++ post.filter isClaimCfg := by
        have : ¬ frag.source = sourceClaim := by
          rw [hfc]; exact sourceClass_ne_sourceClaim
        simp [List.filter_append, List.filter_cons, isClaimCfg, this]
      rw [hfilterClass, hfilterClaim, List.filter_append, List.filter_append]
      have hmerge :
          mergeCandidates
            ((pre.filter isClassCfg ++ frag :: post.filter isClassCfg) ++
              (pre.filter isClaimCfg ++ post.filter isClaimCfg)) [] =
          mergeCandidates
            ((pre.filter isClassCfg ++ post.filter isClassCfg) ++
              (pre.filter isClaimCfg ++ post.filter isClaimCfg)) [] := by
        have h1 :
            (pre.filter isClassCfg ++ frag :: post.filter isClassCfg) ++
              (pre.filter isClaimCfg ++ post.filter isClaimCfg) =
            pre.filter isClassCfg ++ frag ::
              (post.filter isClassCfg ++ (pre.filter isClaimCfg ++ post.filter isClaimCfg)) := by
          simp
        have h2 :
            (pre.filter isClassCfg ++ post.filter isClassCfg) ++
              (pre.filter isClaimCfg ++ post.filter isClaimCfg) =
            pre.filter isClassCfg ++
              (post.filter isClassCfg ++ (pre.filter isClaimCfg ++ post.filter isClaimCfg)) := by
          simp
        rw [h1, h2, mergeCandidates_skip frag op hop hdrv]
      rw [hmerge]
    · have hfilterClass :
          (pre ++ frag :: post).filter isClassCfg =
            pre.filter isClassCfg ++ post.filter isClassCfg := by
        have : ¬ frag.source = sourceClass := by
          rw [hfc]; exact fun contra => sourceClass_ne_sourceClaim contra.symm
        simp [List.filter_append, List.filter_cons, isClassCfg, this]
      have hfilterClaim :
          (pre ++ frag :: post).filter isClaimCfg =
            pre.filter isClaimCfg ++ frag :: post.filter isClaimCfg := by
        simp [List.filter_append, List.filter_cons, isClaimCfg, hfc]
      rw [hfilterClass, hfilterClaim, List.filter_append, List.filter_append]
      have hmerge :
          mergeCandidates
            ((pre.filter isClassCfg ++ post.filter isClassCfg) ++
              (pre.filter isClaimCfg ++ frag :: post.filter isClaimCfg)) [] =
          mergeCandidates
            ((pre.filter isClassCfg ++ post.filter isClassCfg) ++
              (pre.filter isClaimCfg ++ post.filter isClaimCfg)) [] := by
        have h1 :
            (pre.filter isClassCfg ++ post.filter isClassCfg) ++
              (pre.filter isClaimCfg ++ frag :: post.filter isClaimCfg) =
            ((pre.filter isClassCfg ++ post.filter isClassCfg) ++ pre.filter isClaimCfg) ++
              frag :: post.filter isClaimCfg := by
          simp
        have h2 :
            (pre.filter isClassCfg ++ post.filter isClassCfg) ++
              (pre.filter isClaimCfg ++ post.filter isClaimCfg) =
            ((pre.filter isClassCfg ++ post.filter isClassCfg) ++ pre.filter isClaimCfg) ++
              post.filter isClaimCfg := by
          simp
        rw [h1, h2, mergeCandidates_skip frag op hop hdrv]
      rw [hmerge]
  · intro cfgs frag hmem hbad
    by_cases hv : ∀ c ∈ cfgs, c.source = sourceClass ∨ c.source = sourceClaim
    · have hsplit := splitConfigs_ok cfgs hv
      have hmemcand : frag ∈ cfgs.filter isClassCfg ++ cfgs.filter isClaimCfg := by
        rcases hv frag hmem with h | h
        · exact List.mem_append.mpr
            (Or.inl (List.mem_filter.mpr ⟨hmem, by simp [isClassCfg, h]⟩))
        · exact List.mem_append.mpr
            (Or.inr (List.mem_filter.mpr ⟨hmem, by simp [isClaimCfg, h]⟩))
      obtain ⟨e, he⟩ := mergeCandidates_error_of_bad frag hbad _ [] hmemcand
      rw [getMap_eq _ _ _ hsplit, he]
      simp [Except.toOption]
    · obtain ⟨e, he⟩ := splitConfigs_error_of_invalid cfgs hv
      unfold getMapOfOpaqueDeviceConfigForDevice
      rw [he]
      simp [Except.toOption]

/-- Witness for the filtering/decode theorem: a concrete other-driver
fragment sitting between two valid fragments is dropped without
changing the result, and a concrete undecodable fragment makes
resolution fail. -/
theorem fragment_filter_and_decode_witness :
    (getMapOfOpaqueDeviceConfigForDevice [exClassFrag, exOtherDriverFrag, exClaimFrag] =
      getMapOfOpaqueDeviceConfigForDevice [exClassFrag, exClaimFrag]) ∧
    (getMapOfOpaqueDeviceConfigForDevice [exClassFrag, exUndecodableFrag]).toOption = none := by
  constructor
  · exact fragment_filter_and_decode.1 [exClassFrag] [exClaimFrag]
      exOtherDriverFrag { driver := "gpu.example.com", parameters := none }
      (by intro c hc; fin_cases hc <;>
        simp [exClassFrag, exClaimFrag, exOtherDriverFrag, mkClassFrag, mkClaimFrag])
      (by rfl) (by decide)
  · exact fragment_filter_and_decode.2 [exClassFrag, exUndecodableFrag]
      exUndecodableFrag (by simp)
      (Or.inr ⟨{ driver := DriverName, parameters := none }, by rfl, rfl, rfl⟩)

theorem lookupKey_upsertKey_self {α : Type} (m : List (String × α)) (k : String)
    (v : α) : lookupKey (upsertKey m k v) k = some v := by
  induction m with
  | nil => simp [upsertKey, lookupKey]
  | cons p rest ih =>
    obtain ⟨k', w⟩ := p
    by_cases hk : k' = k
    · simp [upsertKey, hk, lookupKey]
    · simp [upsertKey, hk, lookupKey, ih]

theorem lookupKey_upsertKey_ne {α : Type} (m : List (String × α)) (k r : String)
    (v : α) (h : k ≠ r) : lookupKey (upsertKey m k v) r = lookupKey m r := by
  induction m with
  | nil => simp [upsertKey, lookupKey, h]
  | cons p rest ih =>
    obtain ⟨k', w⟩ := p
    by_cases hk : k' = k
    · subst hk
      simp [upsertKey, lookupKey, h]
    · simp [upsertKey, hk, lookupKey, ih]

theorem lookupKey_removeKey_self {α : Type} (m : List (String × α)) (k : String) :
    lookupKey (removeKey m k) k = none := by
  induction m with
  | nil => simp [removeKey, lookupKey]
  | cons p rest ih =>
    obtain ⟨k', w⟩ := p
    by_cases hk : k' = k
    · simp [removeKey, hk, ih]
    · simp [removeKey, hk, lookupKey, ih]

theorem lookupKey_removeKey_ne {α : Type} (m : List (String × α)) (k r : String)
    (h : k ≠ r) : lookupKey (removeKey m k) r = lookupKey m r := by
  induction m with
  | nil => simp [removeKey, lookupKey]
  | cons p rest ih =>
    obtain ⟨k', w⟩ := p
    by_cases hk : k' = k
    · subst hk
      simp [removeKey, lookupKey, h, ih]
    · simp [removeKey, hk, lookupKey, ih]

/-- Loading kernel modules never touches driver bindings. -/
theorem loadMissingModules_drivers :
    ∀ (ms : List String) (s s' : HostState),
      loadMissingModules s ms = .ok s' → s'.drivers = s.drivers := by
  intro ms
  induction ms with
  | nil =>
    intro s s' h
    simp [loadMissingModules] at h
    rw [h]
  | cons m rest ih =>
    intro s s' h
    by_cases hl : IsKernelModuleLoaded s m
    · simp [loadMissingModules, hl] at h
      exact ih s s' h
    · simp only [loadMissingModules, hl, if_false, Bool.false_eq_true] at h
      cases hm : LoadKernelModule s m with
      | error e => rw [hm] at h; exact absurd h (by simp)
      | ok s1 =>
        rw [hm] at h
        have hdrv1 : s1.drivers = s.drivers := by
          unfold LoadKernelModule at hm
          by_cases ha : m ∈ s.availableModules
          · simp [ha] at hm; rw [← hm]
          · simp [ha] at hm
        by_cases hl1 : IsKernelModuleLoaded s1 m
        · simp only [hl1, if_true] at h
          rw [ih s1 s' h, hdrv1]
        · simp [hl1] at h

/-- Ensuring DPDK modules never touches driver bindings. -/
theorem ensureDpdk_drivers (s s' : HostState) (driver : String)
    (h : EnsureDpdkModuleLoaded s driver = .ok s') : s'.drivers = s.drivers := by
  unfold EnsureDpdkModuleLoaded at h
  by_cases hd : IsDpdkDriver driver
  · simp only [hd, not_true_eq_false, if_false, Bool.true_eq_false] at h
    by_cases hv : driver = "vfio-pci"
    · rw [if_pos hv] at h
      exact loadMissingModules_drivers _ s s' h
    · rw [if_neg hv] at h
      exact absurd h (by simp)
  · simp only [hd, Bool.false_eq_true, not_false_eq_true, if_true] at h
    cases h
    rfl

/-- Writing the override hint never touches driver bindings. -/
theorem setDriverOverride_drivers (s : HostState) (d o : String) :
    (setDriverOverride s d o).drivers = s.drivers := by
  unfold setDriverOverride
  split <;> rfl

/-- A successful raw `bindDriver` write binds the device to the
driver. -/
theorem bindDriver_ok_drivers (s s4 : HostState) (device driver : String)
    (h : bindDriver s device driver = .ok s4) :
    s4.drivers = upsertKey s.drivers device driver := by
  unfold bindDriver at h
  by_cases hk : driver ∈ s.knownDrivers
  · rw [if_pos hk] at h
    cases h
    rfl
  · rw [if_neg hk] at h
    exact absurd h (by simp)

/-- A successful `BindDriverByBusAndDevice` leaves the device bound to
exactly the requested driver. -/
theorem bindDriverByBusAndDevice_binds (s s' : HostState) (device driver : String)
    (h : BindDriverByBusAndDevice s device driver = .ok s') :
    GetDriverByBusAndDevice s' device = driver := by
  unfold BindDriverByBusAndDevice at h
  cases hE : EnsureDpdkModuleLoaded s driver with
  | error e =>
    rw [hE] at h
    exact absurd h (by simp)
  | ok s1 =>
    rw [hE] at h
    dsimp only at h
    by_cases hcond : GetDriverByBusAndDevice s1 device ≠ "" ∧
        GetDriverByBusAndDevice s1 device = driver
    · rw [if_pos hcond] at h
      cases h
      exact hcond.2
    · rw [if_neg hcond] at h
      cases hB : bindDriver
          (setDriverOverride
            (if GetDriverByBusAndDevice s1 device ≠ "" then
              UnbindDriverByBusAndDevice s1 device
            else s1)
            device driver)
          device driver with
      | error e =>
        rw [hB] at h
        exact absurd h (by simp)
      | ok s2 =>
        rw [hB] at h
        cases h
        have hd := bindDriver_ok_drivers _ _ _ _ hB
        unfold GetDriverByBusAndDevice
        rw [setDriverOverride_drivers, hd, lookupKey_upsertKey_self]
        rfl

/-- CLAIM C2 (amended): (1) for a non-empty requested driver,
`BindDeviceDriver` returns — and `applyConfigOnDevice` therefore
records as `OriginalDriver` — exactly the driver bound to the device
immediately before rebinding; (2) when the recorded original driver
is non-empty, a successful unprepare leaves the device bound to
exactly that driver; (3) devices whose recorded requested driver is
empty are not rebound during unprepare (the host state is untouched).
(When the recorded original driver is empty, unprepare binds the
kernel default driver via a probe instead — see the counterexample to
the unamended claim.) -/
theorem driver_restore_symmetry :
    (∀ (s s' : HostState) (dev orig : String) (cfg : VfConfig),
      cfg.driver ≠ "" → BindDeviceDriver s dev cfg = .ok (orig, s') →
      orig = GetDriverByBusAndDevice s dev) ∧
    (∀ (s s' : HostState) (pd : PreparedDevice),
      pd.config.driver ≠ "" → pd.originalDriver ≠ "" →
      unprepareDevices s [pd] = .ok s' →
      GetDriverByBusAndDevice s' pd.pciAddress = pd.originalDriver) ∧
    (∀ (s : HostState) (pds : List PreparedDevice),
      (∀ pd ∈ pds, pd.config.driver = "") → unprepareDevices s pds = .ok s) := by
  refine ⟨?_, ?_, ?_⟩
  · intro s s' dev orig cfg hcfg h
    unfold BindDeviceDriver at h
    rw [if_neg hcfg] at h
    by_cases hdef : cfg.driver = "default"
    · rw [if_pos hdef] at h
      cases hB : BindDefaultDriver s dev with
      | error e => rw [hB] at h; exact absurd h (by simp)
      | ok s1 => rw [hB] at h; cases h; rfl
    · rw [if_neg hdef] at h
      cases hB : BindDriverByBusAndDevice s dev cfg.driver with
      | error e => rw [hB] at h; exact absurd h (by simp)
      | ok s1 => rw [hB] at h; cases h; rfl
  · intro s s' pd hcfg horig h
    unfold unprepareDevices at h
    rw [if_pos hcfg] at h
    cases hR : RestoreDeviceDriver s pd.pciAddress pd.originalDriver with
    | error e => rw [hR] at h; exact absurd h (by simp)
    | ok s1 =>
      rw [hR] at h
      simp only [unprepareDevices] at h
      cases h
      unfold RestoreDeviceDriver at hR
      rw [if_neg horig] at hR
      exact bindDriverByBusAndDevice_binds s s' pd.pciAddress pd.originalDriver hR
  · intro s pds h
    induction pds with
    | nil => simp [unprepareDevices]
    | cons pd rest ih =>
      have hpd := h pd (List.mem_cons_self _ _)
      simp only [unprepareDevices, hpd, ne_eq, not_true_eq_false, if_false]
      exact ih fun x hx => h x (List.mem_cons_of_mem _ hx)

/-- Witness for the amended restore-symmetry theorem: preparing the
example VF (bound to `ixgbe`) with `vfio-pci` records `ixgbe`, and
unpreparing the resulting state rebinds `ixgbe` exactly; a device
prepared with an empty requested driver is left alone. -/
theorem driver_restore_symmetry_witness :
    ((BindDeviceDriver exHostIxgbe "0000:01:00.1" exVfioCfg).map Prod.fst =
      .ok "ixgbe") ∧
    (((BindDeviceDriver exHostIxgbe "0000:01:00.1" exVfioCfg).bind
        (fun p => unprepareDevices p.2 [exPreparedVfioFromIxgbe])).map
      (fun s => GetDriverByBusAndDevice s "0000:01:00.1") = .ok "ixgbe") ∧
    unprepareDevices exHostIxgbe
      [{ exPreparedVfioFromIxgbe with config := DefaultVfConfig }] = .ok exHostIxgbe := by
  have h1 : BindDeviceDriver exHostIxgbe "0000:01:00.1" exVfioCfg =
      .ok ("ixgbe", { exHostIxgbe with
        drivers := [("0000:01:00.1", "vfio-pci")]
        overrides := [("0000:01:00.1", "")] }) := by rfl
  have h2 : unprepareDevices
      { exHostIxgbe with
        drivers := [("0000:01:00.1", "vfio-pci")]
        overrides := [("0000:01:00.1", "")] }
      [exPreparedVfioFromIxgbe] =
      .ok { exHostIxgbe with
        drivers := [("0000:01:00.1", "ixgbe")]
        overrides := [("0000:01:00.1", "")] } := by rfl
  refine ⟨?_, ?_, ?_⟩
  · have := driver_restore_symmetry.1 exHostIxgbe _ "0000:01:00.1" "ixgbe" exVfioCfg
      (by decide) h1
    rw [h1]
    rfl
  · have := driver_restore_symmetry.2.1 _ _ exPreparedVfioFromIxgbe
      (by decide) (by decide) h2
    rw [h1]
    simpa [Except.bind, h2, Except.map] using this
  · exact driver_restore_symmetry.2.2 exHostIxgbe _
      (by intro pd hpd; simp only [List.mem_singleton] at hpd; subst hpd; rfl)

/-- CLAIM C2, counterexample to the claim as stated: the example VF is
unbound before preparation, so prepare with requested driver
`vfio-pci` records `OriginalDriver = ""`; unprepare then succeeds but
leaves the device bound to the kernel-probed default `ixgbe`, not to
the recorded (empty) original driver — restoration is a
default-driver probe, not an exact rebind, whenever the recorded
original driver is empty. -/
theorem driver_restore_symmetry_cex :
    ((BindDeviceDriver exHost0 "0000:01:00.1" exVfioCfg).map Prod.fst =
      .ok exPreparedVfio.originalDriver) ∧
    (((BindDeviceDriver exHost0 "0000:01:00.1" exVfioCfg).bind
        (fun p => unprepareDevices p.2 [exPreparedVfio])).map
      (fun s => GetDriverByBusAndDevice s "0000:01:00.1") = .ok "ixgbe") ∧
    ("ixgbe" : String) ≠ exPreparedVfio.originalDriver := by
  refine ⟨by rfl, by rfl, by decide⟩

/-- Marshalling stores the checksum of the zeroed serialization (and
keeps the payload), so verification of the marshalled snapshot
succeeds. -/
theorem marshal_verify (ck : Checkpoint → Nat) (cp : Checkpoint) :
    MarshalCheckpoint ck cp =
      { checksum := ck { cp with checksum := 0 }, v1 := cp.v1 } ∧
    VerifyChecksum ck (MarshalCheckpoint ck cp) = true := by
  constructor
  · rfl
  · simp [MarshalCheckpoint, VerifyChecksum]

/-- Reloading right after a snapshot write restores exactly the
written index. -/
theorem reload_after_sync (ck : Checkpoint → Nat) (st : PMState) :
    NewPodManager ck (syncToCheckpoint ck st).snapshot =
      .ok { index := (syncToCheckpoint ck st).index,
            snapshot := (syncToCheckpoint ck st).snapshot, writes := 0 } := by
  have hv := (marshal_verify ck { checksum := 0, v1 := st.index }).2
  unfold NewPodManager syncToCheckpoint NewCheckpoint
  simp only [MarshalCheckpoint] at hv ⊢
  rw [hv]
  rfl

/-- If the claim scan comes back empty, no pod's map holds the
claim. -/
theorem scanForClaim_none_lookup
    (idx : List (String × List (String × List PreparedDevice))) (claim : String)
    (h : scanForClaim idx claim = none) :
    ∀ p ∈ idx, lookupKey p.2 claim = none := by
  induction idx with
  | nil => intro p hp; simp at hp
  | cons q rest ih =>
    intro p hp
    unfold scanForClaim at h
    cases hq : lookupKey q.2 claim with
    | some devices => rw [hq] at h; simp at h
    | none =>
      rw [hq] at h
      rcases List.mem_cons.mp hp with hp | hp
      · rw [hp]; exact hq
      · exact ih h p hp

theorem removeKey_upsertKey {α : Type} (m : List (String × α)) (k : String)
    (v : α) : removeKey (upsertKey m k v) k = removeKey m k := by
  induction m with
  | nil => simp [upsertKey, removeKey]
  | cons p rest ih =>
    obtain ⟨k', w⟩ := p
    by_cases hk : k' = k
    · simp [upsertKey, hk, removeKey, ih]
    · simp [upsertKey, hk, removeKey, ih]

theorem scanForClaim_removeKey_none
    (idx : List (String × List (String × List PreparedDevice)))
    (k claim : String) (h : scanForClaim idx claim = none) :
    scanForClaim (removeKey idx k) claim = none := by
  induction idx with
  | nil => simp [removeKey, scanForClaim]
  | cons q rest ih =>
    obtain ⟨quid, qcfgs⟩ := q
    unfold scanForClaim at h
    cases hq : lookupKey qcfgs claim with
    | some devices => rw [hq] at h; simp at h
    | none =>
      rw [hq] at h
      by_cases hk : quid = k
      · simp only [removeKey, hk, if_true]
        exact ih h
      · simp only [removeKey, hk, if_false]
        unfold scanForClaim
        rw [hq]
        exact ih h

theorem findPod_none_of_scan_none
    (idx : List (String × List (String × List PreparedDevice))) (claim : String)
    (h : scanForClaim idx claim = none) :
    findPodHoldingClaim idx claim = none := by
  induction idx with
  | nil => simp [findPodHoldingClaim]
  | cons q rest ih =>
    unfold scanForClaim at h
    unfold findPodHoldingClaim
    obtain ⟨quid, qcfgs⟩ := q
    cases hq : lookupKey qcfgs claim with
    | some devices => rw [hq] at h; simp at h
    | none =>
      rw [hq] at h
      exact ih h

/-- After `Set` writes a claim into an index that nowhere holds it,
the claim-deletion scan finds exactly the written pod. -/
theorem findPod_upsert
    (idx : List (String × List (String × List PreparedDevice)))
    (pod claim : String) (podCfgs : List (String × List PreparedDevice))
    (devs : List PreparedDevice) (hnone : scanForClaim idx claim = none) :
    findPodHoldingClaim (upsertKey idx pod (upsertKey podCfgs claim devs)) claim =
      some pod := by
  induction idx with
  | nil =>
    simp [upsertKey, findPodHoldingClaim, lookupKey_upsertKey_self]
  | cons q rest ih =>
    obtain ⟨quid, qcfgs⟩ := q
    unfold scanForClaim at hnone
    cases hq : lookupKey qcfgs claim with
    | some devices => rw [hq] at hnone; simp at hnone
    | none =>
      rw [hq] at hnone
      by_cases hk : quid = pod
      · simp only [upsertKey, hk, if_true, findPodHoldingClaim,
          lookupKey_upsertKey_self]
      · simp only [upsertKey, hk, if_false, findPodHoldingClaim, hq]
        exact ih hnone

/-- The claim-deletion scan finds the unique holder. -/
theorem findPod_unique
    (idx : List (String × List (String × List PreparedDevice)))
    (pod claim : String) (podCfgs : List (String × List PreparedDevice))
    (devs : List PreparedDevice)
    (hlook : lookupKey idx pod = some podCfgs)
    (hdev : lookupKey podCfgs claim = some devs)
    (huniq : ∀ p ∈ idx, p.1 ≠ pod → lookupKey p.2 claim = none) :
    findPodHoldingClaim idx claim = some pod := by
  induction idx with
  | nil => simp [lookupKey] at hlook
  | cons q rest ih =>
    obtain ⟨quid, qcfgs⟩ := q
    by_cases hk : quid = pod
    · subst hk
      rw [show lookupKey ((quid, qcfgs) :: rest) quid = some qcfgs from by
        simp [lookupKey]] at hlook
      injection hlook with hlook
      subst hlook
      simp [findPodHoldingClaim, hdev]
    · have hq : lookupKey qcfgs claim = none :=
        huniq (quid, qcfgs) (List.mem_cons_self _ _) hk
      simp only [lookupKey, hk, if_false] at hlook
      simp only [findPodHoldingClaim, hq]
      exact ih hlook fun p hp hne => huniq p (List.mem_cons_of_mem _ hp) hne

/-- CLAIM C5: ownership-store durability round-trip — (1) the snapshot
marshals with the checksum field zeroed and stores the recomputed
checksum, and verification of the marshalled snapshot succeeds;
(2) `Set` followed by constructing a new store from the written
snapshot restores exactly the index before the simulated restart;
(3) deleting the claim and reloading yields absence (of the claim,
under any pod); (4) a checksum mismatch on load is a fatal load
error, not a silent reset. -/
theorem ownership_store_durability :
    (∀ (ck : Checkpoint → Nat) (cp : Checkpoint),
      MarshalCheckpoint ck cp =
        { checksum := ck { cp with checksum := 0 }, v1 := cp.v1 } ∧
      VerifyChecksum ck (MarshalCheckpoint ck cp) = true) ∧
    (∀ (ck : Checkpoint → Nat) (st : PMState) (pod claim : String)
      (devs : List PreparedDevice),
      NewPodManager ck (pmSet ck st pod claim devs).snapshot =
        .ok { index := (pmSet ck st pod claim devs).index,
              snapshot := (pmSet ck st pod claim devs).snapshot, writes := 0 }) ∧
    (∀ (ck : Checkpoint → Nat) (st : PMState) (pod claim : String)
      (devs : List PreparedDevice),
      pmGetByClaim st claim = none →
      pmGet (pmDeleteClaim ck (pmSet ck st pod claim devs) claim) pod claim = none ∧
      pmGetByClaim (pmDeleteClaim ck (pmSet ck st pod claim devs) claim) claim = none ∧
      NewPodManager ck (pmDeleteClaim ck (pmSet ck st pod claim devs) claim).snapshot =
        .ok { index := (pmDeleteClaim ck (pmSet ck st pod claim devs) claim).index,
              snapshot := (pmDeleteClaim ck (pmSet ck st pod claim devs) claim).snapshot,
              writes := 0 }) ∧
    (∀ (ck : Checkpoint → Nat) (cp : Checkpoint),
      VerifyChecksum ck cp = false →
      NewPodManager ck (some cp) =
        .error "unable to load checkpoint: checkpoint is corrupted") := by
  refine ⟨marshal_verify, ?_, ?_, ?_⟩
  · intro ck st pod claim devs
    exact reload_after_sync ck _
  · intro ck st pod claim devs hfresh
    have hscan : scanForClaim st.index claim = none := hfresh
    have hfind : findPodHoldingClaim (pmSet ck st pod claim devs).index claim =
        some pod :=
      findPod_upsert st.index pod claim _ devs hscan
    have hdel : pmDeleteClaim ck (pmSet ck st pod claim devs) claim =
        syncToCheckpoint ck
          { pmSet ck st pod claim devs with
              index := removeKey (pmSet ck st pod claim devs).index pod } := by
      unfold pmDeleteClaim
      rw [hfind]
    refine ⟨?_, ?_, ?_⟩
    · rw [hdel]
      unfold pmGet syncToCheckpoint
      simp [lookupKey_removeKey_self]
    · rw [hdel]
      unfold pmGetByClaim syncToCheckpoint
      have hidx : (pmSet ck st pod claim devs).index =
          upsertKey st.index pod
            (upsertKey ((lookupKey st.index pod).getD []) claim devs) := rfl
      simp only [hidx]
      rw [removeKey_upsertKey]
      exact scanForClaim_removeKey_none st.index pod claim hscan
    · rw [hdel]
      exact reload_after_sync ck _
  · intro ck cp h
    unfold NewPodManager
    simp [h]

/-- Witness for the durability theorem at concrete inputs: write a
fresh claim `c9` into the example store, reload, delete and reload,
and reject a corrupted snapshot. -/
theorem ownership_store_durability_witness :
    (NewPodManager exCk (pmSet exCk exPM2 "p3" "c9" [exPreparedVfio]).snapshot =
      .ok { index := (pmSet exCk exPM2 "p3" "c9" [exPreparedVfio]).index,
            snapshot := (pmSet exCk exPM2 "p3" "c9" [exPreparedVfio]).snapshot,
            writes := 0 }) ∧
    pmGetByClaim (pmDeleteClaim exCk (pmSet exCk exPM2 "p3" "c9" [exPreparedVfio]) "c9")
      "c9" = none ∧
    NewPodManager exCk (some { checksum := 0, v1 := exIndex2 }) =
      .error "unable to load checkpoint: checkpoint is corrupted" := by
  refine ⟨ownership_store_durability.2.1 exCk exPM2 "p3" "c9" [exPreparedVfio],
    (ownership_store_durability.2.2.1 exCk exPM2 "p3" "c9" [exPreparedVfio]
      (by rfl)).2.1,
    ownership_store_durability.2.2.2 exCk { checksum := 0, v1 := exIndex2 }
      (by rfl)⟩

/-- CLAIM C10: `DeleteClaim` removes the whole entry of the pod that
holds the claim — every other claim under that pod UID disappears
from the index, the other pods are untouched, and the next snapshot
is written from the new index; when no pod holds the claim, the state
(index, snapshot and write count) is unchanged. -/
theorem delete_claim_removes_whole_pod :
    (∀ (ck : Checkpoint → Nat) (st : PMState) (pod claim : String)
      (podCfgs : List (String × List PreparedDevice)) (devs : List PreparedDevice),
      lookupKey st.index pod = some podCfgs →
      lookupKey podCfgs claim = some devs →
      (∀ p ∈ st.index, p.1 ≠ pod → lookupKey p.2 claim = none) →
      lookupKey (pmDeleteClaim ck st claim).index pod = none ∧
      (∀ q, q ≠ pod →
        lookupKey (pmDeleteClaim ck st claim).index q = lookupKey st.index q) ∧
      (pmDeleteClaim ck st claim).snapshot =
        some (MarshalCheckpoint ck
          { checksum := 0, v1 := (pmDeleteClaim ck st claim).index }) ∧
      (pmDeleteClaim ck st claim).writes = st.writes + 1) ∧
    (∀ (ck : Checkpoint → Nat) (st : PMState) (claim : String),
      pmGetByClaim st claim = none → pmDeleteClaim ck st claim = st) := by
  constructor
  · intro ck st pod claim podCfgs devs hlook hdev huniq
    have hfind : findPodHoldingClaim st.index claim = some pod :=
      findPod_unique st.index pod claim podCfgs devs hlook hdev huniq
    have hdel : pmDeleteClaim ck st claim =
        syncToCheckpoint ck { st with index := removeKey st.index pod } := by
      unfold pmDeleteClaim
      rw [hfind]
    refine ⟨?_, ?_, ?_, ?_⟩
    · rw [hdel]
      exact lookupKey_removeKey_self st.index pod
    · intro q hq
      rw [hdel]
      exact lookupKey_removeKey_ne st.index pod q (fun h => hq h.symm)
    · rw [hdel]; rfl
    · rw [hdel]; rfl
  · intro ck st claim hfresh
    have hfind : findPodHoldingClaim st.index claim = none :=
      findPod_none_of_scan_none st.index claim hfresh
    unfold pmDeleteClaim
    rw [hfind]

/-- Witness for the delete-claim theorem: deleting `c1` from the
example store removes pod `p1` entirely (its claim `c2` included),
leaves pod `p2` alone and writes one snapshot; deleting an unknown
claim `c9` changes nothing. -/
theorem delete_claim_removes_whole_pod_witness :
    lookupKey (pmDeleteClaim exCk exPM2 "c1").index "p1" = none ∧
    lookupKey (pmDeleteClaim exCk exPM2 "c1").index "p2" = lookupKey exPM2.index "p2" ∧
    (pmDeleteClaim exCk exPM2 "c1").writes = exPM2.writes + 1 ∧
    pmDeleteClaim exCk exPM2 "c9" = exPM2 := by
  have h := delete_claim_removes_whole_pod.1 exCk exPM2 "p1" "c1"
    [("c1", [exPreparedVfio]), ("c2", [exPreparedVfio])] [exPreparedVfio]
    (by rfl) (by rfl)
    (by
      intro p hp hne
      simp only [exPM2, exIndex2, List.mem_cons, List.mem_singleton] at hp
      rcases hp with hp | hp | hp
      · exact absurd (by rw [hp]) hne
      · rw [hp]; rfl
      · simp at hp)
  exact ⟨h.1, h.2.1 "p2" (by decide), h.2.2.2,
    delete_claim_removes_whole_pod.2 exCk exPM2 "c9" (by rfl)⟩

/-- CLAIM C7: unprepare of a claim with no record in the ownership
store is a no-op success — `nil` is returned and the driver state
(pod manager index, snapshot file, write count, host bindings and CDI
spec files) is returned unchanged. -/
theorem unknown_claim_unprepare_noop (ck : Checkpoint → Nat) (s : DriverState)
    (claim : NamespacedObject) (h : pmGetByClaim s.pm claim.uid = none) :
    unprepareResourceClaim ck s claim = .ok s := by
  unfold unprepareResourceClaim
  rw [h]

/-- Witness: unpreparing the unknown claim `nope` against the example
driver state succeeds and changes nothing. -/
theorem unknown_claim_unprepare_noop_witness :
    unprepareResourceClaim exCk exDriverState2
      { name := "n", namespace' := "ns", uid := "nope" } = .ok exDriverState2 :=
  unknown_claim_unprepare_noop exCk exDriverState2
    { name := "n", namespace' := "ns", uid := "nope" } (by rfl)

/-- `Get` right after `Set` of the same (pod, claim) returns the
stored list. -/
theorem pmGet_pmSet_self (ck : Checkpoint → Nat) (st : PMState)
    (pod claim : String) (devs : List PreparedDevice) :
    pmGet (pmSet ck st pod claim devs) pod claim = some devs := by
  unfold pmGet pmSet syncToCheckpoint
  simp [lookupKey_upsertKey_self]

/-- CLAIM C1: idempotent prepare — (1) when the ownership store
already records (pod, claim), `prepareResourceClaim` returns the
device list built from the stored record and leaves the whole driver
state (host bindings, kernel modules, store, snapshot, CDI files)
unchanged, never invoking the device-state manager; (2) any
successful prepare followed by a second prepare of the same claim
with no intervening unprepare returns the identical device list, and
the second call changes no state. -/
theorem prepare_idempotent :
    (∀ (ck : Checkpoint → Nat) (env : ManagerEnv) (s : DriverState) (idx : Nat)
      (claim : Claim) (pod : String) (alloc : DeviceAllocation)
      (pds : List PreparedDevice),
      claim.reservedFor = [pod] → claim.allocation = some alloc →
      pmGet s.pm pod claim.uid = some pds →
      prepareResourceClaim ck env s idx claim = (.ok (toKubeletDevices pds), s, idx)) ∧
    (∀ (ck : Checkpoint → Nat) (env : ManagerEnv) (s s' : DriverState)
      (idx idx2 idx' : Nat) (claim : Claim) (devs : List KDevice),
      prepareResourceClaim ck env s idx claim = (.ok devs, s', idx') →
      prepareResourceClaim ck env s' idx2 claim = (.ok devs, s', idx2)) := by
  constructor
  · intro ck env s idx claim pod alloc pds hres halloc hget
    unfold prepareResourceClaim
    simp only [hres, halloc, hget]
  · intro ck env s s' idx idx2 idx' claim devs h
    unfold prepareResourceClaim at h
    cases hres : claim.reservedFor with
    | nil => simp only [hres] at h; simp at h
    | cons pod tail =>
      cases tail with
      | cons b t2 => simp only [hres] at h; simp at h
      | nil =>
        simp only [hres] at h
        cases halloc : claim.allocation with
        | none => simp only [halloc] at h; simp at h
        | some alloc =>
          simp only [halloc] at h
          cases hget : pmGet s.pm pod claim.uid with
          | some pds =>
            simp only [hget] at h
            simp only [Prod.mk.injEq, Except.ok.injEq] at h
            obtain ⟨hdevs, hs, hidx⟩ := h
            subst hs
            unfold prepareResourceClaim
            simp only [hres, halloc, hget, hdevs]
          | none =>
            simp only [hget] at h
            rcases hp : env.prepareDevicesForClaim s.host s.cdiSpecFiles idx claim
              with ⟨res, host2, files2, i2⟩
            rw [hp] at h
            cases res with
            | error e => simp at h
            | ok pds =>
              simp only [Prod.mk.injEq, Except.ok.injEq] at h
              obtain ⟨hdevs, hs, hidx⟩ := h
              unfold prepareResourceClaim
              have hget2 : pmGet (pmSet ck s.pm pod claim.uid pds) pod claim.uid =
                  some pds := pmGet_pmSet_self ck s.pm pod claim.uid pds
              simp only [hres, halloc, ← hs, hget2, hdevs]

/-- Witness for the idempotent-prepare theorem: the already-recorded
example claim short-circuits, and a fresh prepare followed by a second
prepare returns the identical list with no further state change. -/
theorem prepare_idempotent_witness :
    (prepareResourceClaim exCk exManagerEnv exDriverStatePrepared 0 exClaim =
      (.ok (toKubeletDevices [exPreparedVfio]), exDriverStatePrepared, 0)) ∧
    (prepareResourceClaim exCk exManagerEnv
        (prepareResourceClaim exCk exManagerEnv exDriverState0 0 exClaim).2.1 1 exClaim =
      ((prepareResourceClaim exCk exManagerEnv exDriverState0 0 exClaim).1,
        (prepareResourceClaim exCk exManagerEnv exDriverState0 0 exClaim).2.1, 1)) := by
  constructor
  · exact prepare_idempotent.1 exCk exManagerEnv exDriverStatePrepared 0 exClaim
      "pu" { results := [], config := [] } [exPreparedVfio] rfl rfl rfl
  · have hfirst : prepareResourceClaim exCk exManagerEnv exDriverState0 0 exClaim =
        (.ok (toKubeletDevices [exPreparedVfio]),
          { pm := pmSet exCk exDriverState0.pm "pu" "cu" [exPreparedVfio]
            host := exHost0, cdiSpecFiles := [] }, 0) := by rfl
    have := prepare_idempotent.2 exCk exManagerEnv exDriverState0 _ 0 1 0 exClaim
      (toKubeletDevices [exPreparedVfio]) hfirst
    rw [hfirst]
    exact this

/-- The retained PF record keeps the PCI address of the device it was
built from. -/
theorem mkPF_address (env : DiscoveryEnv) (d : PciDeviceInfo) (pf : PFInfo)
    (h : mkPF env d = some pf) : pf.address = d.address := by
  unfold mkPF at h
  cases hp : parseHexInt d.classID with
  | none => rw [hp] at h; simp at h
  | some devClass =>
    rw [hp] at h
    dsimp only at h
    by_cases h1 : devClass ≠ NetClass
    · rw [if_pos h1] at h; simp at h
    · rw [if_neg h1] at h
      by_cases h2 : env.isSriovVF d.address
      · rw [if_pos h2] at h; simp at h
      · rw [if_neg h2] at h
        by_cases h3 : env.tryGetInterfaceName d.address = ""
        · rw [if_pos h3] at h; simp at h
        · rw [if_neg h3] at h
          have h' := Option.some.inj h
          rw [← h']

theorem exceptToOption_ok {ε α : Type} (a : α) :
    (Except.ok a : Except ε α).toOption = some a := rfl

theorem exceptToOption_error {ε α : Type} (e : ε) :
    (Except.error e : Except ε α).toOption = none := rfl

/-- The VF-listing fold fails exactly when some retained PF's VF
listing fails. -/
theorem addVFDevices_none_iff (env : DiscoveryEnv) :
    ∀ (pfs : List PFInfo) (acc : List (String × AllocDevice)),
      ((addVFDevices env pfs acc).toOption = none) ↔
        pfs.any (fun pf => !(env.getVFList pf.address).toOption.isSome) = true := by
  intro pfs
  induction pfs with
  | nil => intro acc; simp [addVFDevices, exceptToOption_ok]
  | cons pf rest ih =>
    intro acc
    cases hv : env.getVFList pf.address with
    | error e =>
      simp only [addVFDevices, hv, List.any_cons, exceptToOption_error,
        Option.isSome_none, Bool.not_false, Bool.true_or]
    | ok vfs =>
      simp only [addVFDevices, hv, List.any_cons, exceptToOption_ok,
        Option.isSome_some, Bool.not_true, Bool.false_or]
      exact ih _

/-- Rewriting the per-PF VF-listing test through the PF filter. -/
theorem any_getVF_filterMap (env : DiscoveryEnv) (l : List PciDeviceInfo) :
    (l.filterMap (mkPF env)).any (fun pf => !(env.getVFList pf.address).toOption.isSome) =
      l.any (fun d =>
        (mkPF env d).isSome && !(env.getVFList d.address).toOption.isSome) := by
  induction l with
  | nil => rfl
  | cons d rest ih =>
    cases hm : mkPF env d with
    | none =>
      simp only [List.filterMap_cons, hm, List.any_cons, Option.isSome_none,
        Bool.false_and, Bool.false_or]
      exact ih
    | some pf =>
      have haddr : pf.address = d.address := mkPF_address env d pf hm
      simp only [List.filterMap_cons, hm, List.any_cons, Option.isSome_some,
        Bool.true_and, haddr]
      rw [ih]

/-- CLAIM C6: discovery error contract — once PCI enumeration
succeeds, discovery fails exactly when the enumeration is empty or
the VF listing of some retained physical function (network class,
not itself a VF, with a resolvable interface name) fails; devices
skipped by the filters never cause an error. -/
theorem discovery_error_contract (env : DiscoveryEnv)
    (devices : List PciDeviceInfo) (hpci : env.pci = .ok devices) :
    ((DiscoverSriovDevices env).toOption = none) ↔
      (devices.isEmpty ||
        devices.any (fun d =>
          (mkPF env d).isSome && !(env.getVFList d.address).toOption.isSome)) = true := by
  unfold DiscoverSriovDevices
  rw [hpci]
  by_cases he : devices.isEmpty
  · simp [he, Except.toOption]
  · simp only [he, Bool.false_eq_true, if_false, Bool.false_or]
    rw [← any_getVF_filterMap env devices]
    exact addVFDevices_none_iff env (devices.filterMap (mkPF env)) []

/-- Witness for the discovery error contract: the no-network-device
host yields success with an empty set (no error despite an empty
result), and the VF-listing-failure host yields an error. -/
theorem discovery_error_contract_witness :
    (((DiscoverSriovDevices exDiscEnvNoNet).toOption = none) ↔
      (exUsbList.isEmpty ||
        exUsbList.any (fun d =>
          (mkPF exDiscEnvNoNet d).isSome &&
            !(exDiscEnvNoNet.getVFList d.address).toOption.isSome)) = true) ∧
    (((DiscoverSriovDevices exDiscEnvVfFail).toOption = none) ↔
      (([exPF0] : List PciDeviceInfo).isEmpty ||
        [exPF0].any (fun d =>
          (mkPF exDiscEnvVfFail d).isSome &&
            !(exDiscEnvVfFail.getVFList d.address).toOption.isSome)) = true) := by
  constructor
  · exact discovery_error_contract exDiscEnvNoNet exUsbList rfl
  · exact discovery_error_contract exDiscEnvVfFail [exPF0] rfl

theorem lookupKey_isSome_upsert {α : Type} (m : List (String × α)) (k r : String)
    (v : α) (h : (lookupKey m r).isSome = true) :
    (lookupKey (upsertKey m k v) r).isSome = true := by
  by_cases hk : k = r
  · subst hk
    rw [lookupKey_upsertKey_self]
    rfl
  · rw [lookupKey_upsertKey_ne m k r v hk]
    exact h

/-- After folding a PF's VF list into the table, every VF's
normalized name is a key. -/
theorem foldVF_isSome (pf : PFInfo) :
    ∀ (vfs : List VFInfo) (acc : List (String × AllocDevice)) (r : String),
      (r ∈ vfs.map (fun vf => normalizeName vf.pciAddress) ∨
        (lookupKey acc r).isSome = true) →
      (lookupKey
        (vfs.foldl
          (fun a vf => upsertKey a (normalizeName vf.pciAddress) (mkDevice pf vf))
          acc) r).isSome = true := by
  intro vfs
  induction vfs with
  | nil =>
    intro acc r h
    rcases h with h | h
    · simp at h
    · simpa using h
  | cons vf rest ih =>
    intro acc r h
    simp only [List.foldl_cons]
    set acc' := upsertKey acc (normalizeName vf.pciAddress) (mkDevice pf vf) with hacc'
    rcases h with h | h
    · rcases List.mem_map.mp h with ⟨vf', hvf', hr⟩
      rcases List.mem_cons.mp hvf' with hvf' | hvf'
      · refine ih acc' r (Or.inr ?_)
        rw [hacc', ← hr, hvf', lookupKey_upsertKey_self]
        rfl
      · exact ih acc' r (Or.inl (List.mem_map.mpr ⟨vf', hvf', hr⟩))
    · exact ih acc' r (Or.inr (lookupKey_isSome_upsert acc _ r _ h))

/-- Keys already present, or contributed by a listed VF of a retained
PF, survive the whole discovery fold. -/
theorem addVF_isSome (env : DiscoveryEnv) :
    ∀ (pfs : List PFInfo) (acc res : List (String × AllocDevice)) (r : String),
      addVFDevices env pfs acc = .ok res →
      ((lookupKey acc r).isSome = true ∨
        ∃ pf ∈ pfs, ∃ vfs, env.getVFList pf.address = .ok vfs ∧
          r ∈ vfs.map (fun vf => normalizeName vf.pciAddress)) →
      (lookupKey res r).isSome = true := by
  intro pfs
  induction pfs with
  | nil =>
    intro acc res r h hyp
    simp only [addVFDevices, Except.ok.injEq] at h
    subst h
    rcases hyp with hyp | ⟨pf, hpf, _⟩
    · exact hyp
    · simp at hpf
  | cons pf rest ih =>
    intro acc res r h hyp
    unfold addVFDevices at h
    cases hv : env.getVFList pf.address with
    | error e => rw [hv] at h; simp at h
    | ok vfs0 =>
      rw [hv] at h
      rcases hyp with hyp | ⟨pf', hpf', vfs', hv', hr⟩
      · exact ih _ res r h (Or.inl (foldVF_isSome pf vfs0 acc r (Or.inr hyp)))
      · rcases List.mem_cons.mp hpf' with hpf' | hpf'
        · subst hpf'
          rw [hv] at hv'
          injection hv' with hv'
          subst hv'
          exact ih _ res r h (Or.inl (foldVF_isSome pf' vfs0 acc r (Or.inl hr)))
        · exact ih _ res r h (Or.inr ⟨pf', hpf', vfs', hv', hr⟩)

theorem mem_upsertKey {α : Type} (m : List (String × α)) (k : String) (v : α) :
    ∀ p ∈ upsertKey m k v, p ∈ m ∨ p = (k, v) := by
  induction m with
  | nil => intro p hp; simp [upsertKey] at hp; simp [hp]
  | cons q rest ih =>
    intro p hp
    obtain ⟨k', w⟩ := q
    by_cases hk : k' = k
    · simp only [upsertKey, hk, if_true] at hp
      rcases List.mem_cons.mp hp with hp | hp
      · subst hk; right; rw [hp]
      · left; exact List.mem_cons_of_mem _ hp
    · simp only [upsertKey, hk, if_false] at hp
      rcases List.mem_cons.mp hp with hp | hp
      · left; rw [hp]; exact List.mem_cons_self _ _
      · rcases ih p hp with hp | hp
        · left; exact List.mem_cons_of_mem _ hp
        · right; exact hp

/-- Every entry written by the discovery fold is named by its key. -/
theorem foldVF_names (pf : PFInfo) :
    ∀ (vfs : List VFInfo) (acc : List (String × AllocDevice)),
      (∀ p ∈ acc, (p : String × AllocDevice).2.name = p.1) →
      ∀ p ∈ vfs.foldl
          (fun a vf => upsertKey a (normalizeName vf.pciAddress) (mkDevice pf vf))
          acc, (p : String × AllocDevice).2.name = p.1 := by
  intro vfs
  induction vfs with
  | nil => intro acc hacc; simpa using hacc
  | cons vf rest ih =>
    intro acc hacc
    simp only [List.foldl_cons]
    refine ih _ ?_
    intro p hp
    rcases mem_upsertKey acc (normalizeName vf.pciAddress) (mkDevice pf vf) p hp
      with hp | hp
    · exact hacc p hp
    · rw [hp]
      rfl

theorem addVF_names (env : DiscoveryEnv) :
    ∀ (pfs : List PFInfo) (acc res : List (String × AllocDevice)),
      addVFDevices env pfs acc = .ok res →
      (∀ p ∈ acc, (p : String × AllocDevice).2.name = p.1) →
      ∀ p ∈ res, (p : String × AllocDevice).2.name = p.1 := by
  intro pfs
  induction pfs with
  | nil =>
    intro acc res h hacc
    simp only [addVFDevices, Except.ok.injEq] at h
    subst h
    exact hacc
  | cons pf rest ih =>
    intro acc res h hacc
    unfold addVFDevices at h
    cases hv : env.getVFList pf.address with
    | error e => rw [hv] at h; simp at h
    | ok vfs0 =>
      rw [hv] at h
      exact ih _ res h (foldVF_names pf vfs0 acc hacc)

theorem mem_keys_upsertKey {α : Type} (m : List (String × α)) (k a : String)
    (v : α) (h : a ∈ (upsertKey m k v).map Prod.fst) :
    a ∈ m.map Prod.fst ∨ a = k := by
  rcases List.mem_map.mp h with ⟨p, hp, ha⟩
  rcases mem_upsertKey m k v p hp with hp | hp
  · left; exact List.mem_map.mpr ⟨p, hp, ha⟩
  · right; rw [← ha, hp]

theorem nodup_keys_upsertKey {α : Type} (m : List (String × α)) (k : String)
    (v : α) (h : (m.map Prod.fst).Nodup) :
    ((upsertKey m k v).map Prod.fst).Nodup := by
  induction m with
  | nil => simp [upsertKey]
  | cons q rest ih =>
    obtain ⟨k', w⟩ := q
    simp only [List.map_cons, List.nodup_cons] at h
    by_cases hk : k' = k
    · simp only [upsertKey, hk, if_true, List.map_cons, List.nodup_cons]
      exact ⟨hk ▸ h.1, h.2⟩
    · simp only [upsertKey, hk, if_false, List.map_cons, List.nodup_cons]
      refine ⟨?_, ih h.2⟩
      intro hmem
      rcases mem_keys_upsertKey rest k k' v hmem with hmem | hmem
      · exact h.1 hmem
      · exact hk hmem

theorem foldVF_nodup (pf : PFInfo) :
    ∀ (vfs : List VFInfo) (acc : List (String × AllocDevice)),
      ((acc.map Prod.fst).Nodup) →
      (((vfs.foldl
          (fun a vf => upsertKey a (normalizeName vf.pciAddress) (mkDevice pf vf))
          acc).map Prod.fst).Nodup) := by
  intro vfs
  induction vfs with
  | nil => intro acc hacc; simpa using hacc
  | cons vf rest ih =>
    intro acc hacc
    simp only [List.foldl_cons]
    exact ih _ (nodup_keys_upsertKey acc _ _ hacc)

theorem addVF_nodup (env : DiscoveryEnv) :
    ∀ (pfs : List PFInfo) (acc res : List (String × AllocDevice)),
      addVFDevices env pfs acc = .ok res →
      ((acc.map Prod.fst).Nodup) → ((res.map Prod.fst).Nodup) := by
  intro pfs
  induction pfs with
  | nil =>
    intro acc res h hacc
    simp only [addVFDevices, Except.ok.injEq] at h
    subst h
    exact hacc
  | cons pf rest ih =>
    intro acc res h hacc
    unfold addVFDevices at h
    cases hv : env.getVFList pf.address with
    | error e => rw [hv] at h; simp at h
    | ok vfs0 =>
      rw [hv] at h
      exact ih _ res h (foldVF_nodup pf vfs0 acc hacc)

/-- Inversion of a successful discovery run. -/
theorem discover_ok_inv (env : DiscoveryEnv) (devices : List PciDeviceInfo)
    (res : List (String × AllocDevice)) (hpci : env.pci = .ok devices)
    (hdisc : DiscoverSriovDevices env = .ok res) :
    addVFDevices env (devices.filterMap (mkPF env)) [] = .ok res := by
  unfold DiscoverSriovDevices at hdisc
  simp only [hpci] at hdisc
  by_cases he : devices.isEmpty
  · rw [if_pos he] at hdisc
    exact absurd hdisc (by simp)
  · rwa [if_neg he] at hdisc

/-- CLAIM C9: device naming — (1) every virtual function of every
retained physical function contributes an entry keyed by its PCI
address with `:` and `.` replaced by `-`; (2) every entry's `name`
attribute equals its key and the keys are pairwise distinct (exactly
one entry per name); (3) the example topology (PF `0000:01:00.0` with
VFs `0000:01:00.1` and `0000:01:00.2`) deterministically yields
exactly the two entries `0000-01-00-1` and `0000-01-00-2`. -/
theorem device_naming :
    (∀ (env : DiscoveryEnv) (devices : List PciDeviceInfo)
      (res : List (String × AllocDevice)) (d : PciDeviceInfo) (pf : PFInfo)
      (vfs : List VFInfo) (vf : VFInfo),
      env.pci = .ok devices → DiscoverSriovDevices env = .ok res →
      d ∈ devices → mkPF env d = some pf →
      env.getVFList d.address = .ok vfs → vf ∈ vfs →
      (lookupKey res (normalizeName vf.pciAddress)).isSome = true) ∧
    (∀ (env : DiscoveryEnv) (devices : List PciDeviceInfo)
      (res : List (String × AllocDevice)),
      env.pci = .ok devices → DiscoverSriovDevices env = .ok res →
      (∀ p ∈ res, (p : String × AllocDevice).2.name = p.1) ∧
        ((res.map Prod.fst).Nodup)) ∧
    (DiscoverSriovDevices exDiscEnv).map (List.map Prod.fst) =
      .ok ["0000-01-00-1", "0000-01-00-2"] := by
  refine ⟨?_, ?_, by rfl⟩
  · intro env devices res d pf vfs vf hpci hdisc hd hm hv hvf
    have hadd := discover_ok_inv env devices res hpci hdisc
    have hpf : pf ∈ devices.filterMap (mkPF env) :=
      List.mem_filterMap.mpr ⟨d, hd, hm⟩
    have haddr : pf.address = d.address := mkPF_address env d pf hm
    refine addVF_isSome env _ [] res _ hadd (Or.inr ⟨pf, hpf, vfs, ?_, ?_⟩)
    · rw [haddr]; exact hv
    · exact List.mem_map.mpr ⟨vf, hvf, rfl⟩
  · intro env devices res hpci hdisc
    have hadd := discover_ok_inv env devices res hpci hdisc
    exact ⟨addVF_names env _ [] res hadd (by intro p hp; simp at hp),
      addVF_nodup env _ [] res hadd (by simp)⟩

/-- Witness for the device-naming theorem at the example topology. -/
theorem device_naming_witness :
    (lookupKey exDiscResult (normalizeName "0000:01:00.1")).isSome = true ∧
    (∀ p ∈ exDiscResult, (p : String × AllocDevice).2.name = p.1) ∧
    ((exDiscResult.map Prod.fst).Nodup) := by
  have hdisc : DiscoverSriovDevices exDiscEnv = .ok exDiscResult := by rfl
  refine ⟨?_, device_naming.2.1 exDiscEnv [exPF0] exDiscResult rfl hdisc⟩
  exact device_naming.1 exDiscEnv [exPF0] exDiscResult exPF0 exPFInfo
    [exVF1, exVF2] exVF1 rfl hdisc (List.mem_singleton.mpr rfl) rfl rfl
    (List.mem_cons_self _ _)

end DraSriov
